import Mathlib

/-!
# Verification of the gritto-server goal-planning backend

A shallow embedding of the TypeScript backend (`src/backend/src/index.ts`,
`src/backend/src/services/contextService.ts`,
`src/backend/src/repositories/goalRepository.ts`, the task repository, and the
agent-message handler) in Lean 4, together with theorems settling the frozen
claims about capacity checks, task-date conflicts, session lifecycle and
context-snapshot construction.

Modelling conventions:
* JS numbers that have passed a `typeof x === 'number' && Number.isFinite(x)`
  guard are modelled as integers (`Int`): every claim's arithmetic (hour sums,
  capacity comparisons, clamping) is integral, and on integral values
  `Math.trunc` is the identity, so it is elided.  A numeric field that is
  absent, of the wrong type, `NaN` or infinite is modelled as `Option.none`
  whenever the code treats all of those identically.  When the code
  distinguishes an absent field from a present-but-invalid one
  (e.g. `if (x !== undefined) assert(...)`) the field is modelled with the
  three-valued `JsField`; for `priority`, `JsField.invalid` also covers a
  number failing `Number.isInteger`.
* `String.prototype.trim` is modelled by the structurally recursive `jsTrim`.
* Firestore is modelled as an in-memory `Store` of record lists; document ids
  are generated from a counter.  `createdAt`/`updatedAt` timestamps and user
  identity fields that no claim mentions are elided.
* `Array.prototype.sort` with a comparator is a stable sort (ECMAScript 2019);
  it is modelled by the stable insertion sort `sortByKey`.
* The session, user and goal-preview repositories of the original repository
  are not part of the provided sources; those operations are modelled from
  the spec (see the `Modelled from the spec:` doc comments).  The milestone
  repository is present (staged in `src/dist/firebase.js` after the document
  separator) and is embedded from that source.
-/

/-- Goal/milestone statuses and session state tags are strings at runtime. -/
abbrev StatusTag := String

/-- Structured diagnostic payload attached to an `ApiError` (`details`). -/
structure GoalSummary where
  goalId : String
  title : String
  weeklyHours : Int
deriving DecidableEq

/-- The `details` field of an `ApiError`: either absent, the capacity-conflict
payload `{availableHoursPerWeek, requiredHoursPerWeek, conflictingGoals}` or the
task-conflict payload `{conflictingTaskIds}`. -/
inductive ErrorDetails where
  | nodetails : ErrorDetails
  | capacity (availableHoursPerWeek requiredHoursPerWeek : Int)
      (conflictingGoals : List GoalSummary) : ErrorDetails
  | taskConflict (conflictingTaskIds : List String) : ErrorDetails
deriving DecidableEq

/-- `ApiError` from `src/backend/src/errors` (status, message, optional details). -/
structure ApiError where
  status : Nat
  message : String
  details : ErrorDetails
deriving DecidableEq

/-- A body field of a loosely-typed JSON request: absent, present but of an
invalid type/value class, or a well-typed value. -/
inductive JsField (α : Type) where
  | absent : JsField α
  | invalid : JsField α
  | val : α → JsField α
deriving DecidableEq

/-- `UserRecord` (identity fields not used by any claim are elided). -/
structure UserRecord where
  id : String
  availableHoursPerWeek : Int
deriving DecidableEq

/-- `GoalRecord` (timestamps elided; status is the runtime string tag). -/
structure GoalRecord where
  id : String
  userId : String
  title : String
  description : Option String
  status : StatusTag
  color : Option Int
  minHoursPerWeek : Int
  priority : Int
deriving DecidableEq

/-- `MilestoneRecord` (timestamps and the `tasks` id array elided). -/
structure MilestoneRecord where
  id : String
  goalId : String
  parentMilestoneId : Option String
  title : String
  description : Option String
  status : StatusTag
deriving DecidableEq

/-- `TaskRecord` (timestamps elided). -/
structure TaskRecord where
  id : String
  goalId : String
  milestoneId : String
  userId : String
  title : String
  description : Option String
  date : String
  estimatedHours : Int
  done : Bool
deriving DecidableEq

/-- One task of the context snapshot built by `buildUserContext`
(`{id, title, goalId, milestoneId, date, estimatedHours, done}`). -/
structure ContextTask where
  id : String
  title : String
  goalId : String
  milestoneId : String
  date : String
  estimatedHours : Int
  done : Bool
deriving DecidableEq

/-- `UserContextSnapshot` from `contextService.ts`. -/
structure UserContextSnapshot where
  availableHoursLeft : Int
  upcomingTasks : List ContextTask
deriving DecidableEq

/-- `SessionStateRecord` (timestamps elided; `state` is the runtime string tag). -/
structure SessionStateRecord where
  id : String
  userId : String
  chatId : String
  state : StatusTag
  iteration : Int
  goalPreviewId : Option String
  sessionActive : Bool
  context : UserContextSnapshot
deriving DecidableEq

/-- `ChatMessageRecord` (timestamps and generated id elided). -/
structure ChatMessageRecord where
  chatId : String
  sessionId : String
  sender : String
  message : String
deriving DecidableEq

/-- `AgentGoalPlan` from `index.ts`: the goal-level part of an agent plan.
Numeric fields are `none` when absent, non-numeric, `NaN` or infinite (the code
guards each use with `typeof === 'number' && Number.isFinite`). -/
structure AgentGoalPlan where
  title : Option String
  description : Option String
  minHoursPerWeek : Option Int
  priority : Option Int
  color : Option Int
deriving DecidableEq

/-- `AgentTaskPlan` from `index.ts`. -/
structure AgentTaskPlan where
  title : Option String
  description : Option String
  date : Option String
  estimatedHours : Option Int
  done : Bool
deriving DecidableEq

/-- `AgentMilestonePlan` from `index.ts` (`tasks` is `none` when not an array). -/
structure AgentMilestonePlan where
  title : Option String
  description : Option String
  status : Option String
  tasks : Option (List AgentTaskPlan)
deriving DecidableEq

/-- `AgentPlanContainer` from `index.ts`, plus the optional `id` string field
that `extractPreviewPayload`/`finalizeGoalPlanFromAgentPayload` read off the
same object. -/
structure PlanContainer where
  id : Option String
  goal : Option AgentGoalPlan
  milestones : Option (List AgentMilestonePlan)
deriving DecidableEq

/-- The untyped `action.payload` record of an agent response, as probed by
`extractPlanContainer` / `extractPreviewPayload`: an optional `goalPreviewId`
string, an optional embedded `goalPreview` object, an optional embedded `plan`
object, and the goal/milestone fields of the payload object itself. -/
structure AgentActionPayload where
  goalPreviewId : Option String
  goalPreview : Option PlanContainer
  plan : Option PlanContainer
  self : PlanContainer
deriving DecidableEq

/-- `GoalPreviewRecord` (timestamps elided; `data` is the stored plan shape). -/
structure GoalPreviewRecord where
  id : String
  userId : String
  sessionId : String
  data : PlanContainer
deriving DecidableEq

/-- The in-memory model of the Firestore collections plus an id counter. -/
structure Store where
  users : List UserRecord
  goals : List GoalRecord
  milestones : List MilestoneRecord
  tasks : List TaskRecord
  sessions : List SessionStateRecord
  previews : List GoalPreviewRecord
  chats : List ChatMessageRecord
  nextId : Nat
deriving DecidableEq

/-- Allocate a fresh document id. -/
def freshId (s : Store) : String × Store :=
  ("id" ++ toString s.nextId, { s with nextId := s.nextId + 1 })

/-- Drop leading whitespace characters (helper for `jsTrim`). -/
def dropLeadingWs : List Char → List Char
  | [] => []
  | c :: rest => if c.isWhitespace then dropLeadingWs rest else c :: rest

/-- `String.prototype.trim`: strip leading and trailing whitespace. -/
def jsTrim (s : String) : String :=
  ⟨dropLeadingWs ((dropLeadingWs s.data.reverse).reverse)⟩

/-! ## Stable sorting

`Array.prototype.sort(cmp)` is a stable sort; both `taskRepository` and
`contextService` sort by `a.date.localeCompare(b.date)` and `goalRepository`
sorts by `a.priority - b.priority`.  `sortByKey` is a stable insertion sort by
an arbitrary key into a linear order. -/

/-- Insert `a` into `l`, skipping exactly the elements whose key is strictly
below `key a`; equal-keyed elements of `l` stay after `a` (stability). -/
def insertByKey [LinearOrder β] (key : α → β) (a : α) : List α → List α
  | [] => [a]
  | b :: t => if key b < key a then b :: insertByKey key a t else a :: b :: t

/-- Stable sort by `key`, ascending. -/
def sortByKey [LinearOrder β] (key : α → β) : List α → List α
  | [] => []
  | a :: t => insertByKey key a (sortByKey key t)

/-! ## Repository operations

`goalRepository.ts`, the task repository and the milestone repository
(staged in `src/dist/firebase.js`) are part of the provided sources; the
user, session and goal-preview repositories are not and are modelled from the
spec (§6 record-store boundary: get-by-id, equality filters, insert,
partial-field update). -/

/-- `doc.id !== excludeGoalId` where the exclusion may be `undefined`. -/
def notExcluded (id : String) : Option String → Bool
  | none => true
  | some e => id != e

/-- Modelled from the spec: `userRepository.findUserById` is not under `src/`;
it is the record store's get-by-id on the `User` collection. -/
def findUserById (s : Store) (id : String) : Option UserRecord :=
  s.users.find? (fun u => u.id == id)

/-- `createGoal` from `goalRepository.ts`: fresh id, status forced `active`. -/
def createGoal (s : Store) (userId title : String) (description : Option String)
    (minHoursPerWeek : Int) (priority : Int) (color : Option Int) :
    GoalRecord × Store :=
  let idAndStore := freshId s
  let record : GoalRecord :=
    ⟨idAndStore.1, userId, title, description, "active", color, minHoursPerWeek, priority⟩
  (record, { idAndStore.2 with goals := idAndStore.2.goals ++ [record] })

/-- `getGoalById` from `goalRepository.ts`. -/
def getGoalById (s : Store) (id : String) : Option GoalRecord :=
  s.goals.find? (fun g => g.id == id)

/-- `listGoals` from `goalRepository.ts`: filter by user (and by status unless
`all`), then sort ascending by priority (stable comparator sort). -/
def listGoals (s : Store) (userId : String) (status : String) : List GoalRecord :=
  let base := s.goals.filter (fun g => g.userId == userId)
  let filtered :=
    if status == "all" then base else base.filter (fun g => g.status == status)
  sortByKey (fun g => g.priority) filtered

/-- `sumActiveGoalHours` from `goalRepository.ts`: sum of `hoursPerWeek` over
the user's active goals, minus an optional excluded goal id. -/
def sumActiveGoalHours (s : Store) (userId : String) (excludeGoalId : Option String) : Int :=
  (((s.goals.filter (fun g => g.userId == userId && g.status == "active")).filter
      (fun g => notExcluded g.id excludeGoalId)).map
    (fun g => g.minHoursPerWeek)).sum

/-- `collectActiveGoalSummaries` from `index.ts`. -/
def collectActiveGoalSummaries (s : Store) (userId : String)
    (excludeGoalId : Option String) : List GoalSummary :=
  ((listGoals s userId "active").filter (fun g => notExcluded g.id excludeGoalId)).map
    (fun g => ⟨g.id, g.title, g.minHoursPerWeek⟩)

/-- `createTask` from the task repository: fresh id, `done` forced `false`. -/
def createTask (s : Store) (goalId milestoneId userId title : String)
    (description : Option String) (date : String) (estimatedHours : Int) :
    TaskRecord × Store :=
  let idAndStore := freshId s
  let record : TaskRecord :=
    ⟨idAndStore.1, goalId, milestoneId, userId, title, description, date,
      estimatedHours, false⟩
  (record, { idAndStore.2 with tasks := idAndStore.2.tasks ++ [record] })

/-- `getTaskById` from the task repository. -/
def getTaskById (s : Store) (id : String) : Option TaskRecord :=
  s.tasks.find? (fun t => t.id == id)

/-- The partial-update payload of `updateTask`. -/
structure TaskUpdates where
  title : Option String
  description : Option (Option String)
  date : Option String
  estimatedHours : Option Int
  done : Option Bool
deriving DecidableEq

/-- Apply a partial task update (each field only when supplied). -/
def applyTaskUpdates (t : TaskRecord) (u : TaskUpdates) : TaskRecord :=
  { t with
    title := u.title.getD t.title
    description := u.description.getD t.description
    date := u.date.getD t.date
    estimatedHours := u.estimatedHours.getD t.estimatedHours
    done := u.done.getD t.done }

/-- `updateTask` from the task repository. -/
def updateTask (s : Store) (id : String) (u : TaskUpdates) : Store :=
  { s with tasks := s.tasks.map (fun t => if t.id = id then applyTaskUpdates t u else t) }

/-- `setTaskDone` from the task repository (`updateTask(id, { done })`). -/
def setTaskDone (s : Store) (id : String) (done : Bool) : Store :=
  updateTask s id ⟨none, none, none, none, some done⟩

/-- `listTasksByMilestone` from the task repository. -/
def listTasksByMilestone (s : Store) (milestoneId : String) : List TaskRecord :=
  s.tasks.filter (fun t => t.milestoneId == milestoneId)

/-- `listIncompleteTasksByUser` from the task repository: the user's tasks with
`done == false`, sorted ascending by `date` (stable comparator sort). -/
def listIncompleteTasksByUser (s : Store) (userId : String) : List TaskRecord :=
  sortByKey (fun t => t.date)
    (s.tasks.filter (fun t => t.userId == userId && t.done == false))

/-- `createMilestone` from `milestoneRepository.ts` (staged in
`src/dist/firebase.js`): fresh id, status forced `blocked`; the `tasks` id
array (empty at creation) is elided like the timestamps. -/
def createMilestone (s : Store) (goalId title : String) (description : Option String)
    (parentMilestoneId : Option String) : MilestoneRecord × Store :=
  let idAndStore := freshId s
  let record : MilestoneRecord :=
    ⟨idAndStore.1, goalId, parentMilestoneId, title, description, "blocked"⟩
  (record, { idAndStore.2 with milestones := idAndStore.2.milestones ++ [record] })

/-- `getMilestoneById` from `milestoneRepository.ts` (staged in
`src/dist/firebase.js`). -/
def getMilestoneById (s : Store) (id : String) : Option MilestoneRecord :=
  s.milestones.find? (fun m => m.id == id)

/-- `updateMilestone` from `milestoneRepository.ts` (staged in
`src/dist/firebase.js`), restricted to the status-only update that
`finalizeGoalPlanFromAgentPayload` performs. -/
def updateMilestoneStatus (s : Store) (id : String) (status : StatusTag) : Store :=
  { s with milestones :=
      s.milestones.map (fun m => if m.id = id then { m with status := status } else m) }

/-- Modelled from the spec: `sessionRepository.findSessionById` is not under
`src/`; get-by-id on the `SessionState` collection. -/
def findSessionById (s : Store) (id : String) : Option SessionStateRecord :=
  s.sessions.find? (fun x => x.id == id)

/-- Modelled from the spec: `sessionRepository.updateSession` is not under
`src/`; it is a partial-field update of the session record.  The agent-message
handler supplies all five updatable fields, so the update is modelled as
replacing exactly those fields of the located record. -/
def updateSession (s : Store) (session : SessionStateRecord) (state : StatusTag)
    (iteration : Int) (goalPreviewId : Option String) (sessionActive : Bool)
    (context : UserContextSnapshot) : SessionStateRecord × Store :=
  let updated := { session with
    state := state
    iteration := iteration
    goalPreviewId := goalPreviewId
    sessionActive := sessionActive
    context := context }
  (updated,
    { s with sessions := s.sessions.map (fun x => if x.id = session.id then updated else x) })

/-- Modelled from the spec: `sessionRepository.appendChatMessage` is not under
`src/`; the chat transcript is append-only. -/
def appendChatMessage (s : Store) (chatId sessionId sender message : String) : Store :=
  { s with chats := s.chats ++ [⟨chatId, sessionId, sender, message⟩] }

/-- Modelled from the spec: `goalPreviewRepository.findGoalPreviewById` is not
under `src/`; get-by-id on the `GoalPreview` collection. -/
def findGoalPreviewById (s : Store) (id : String) : Option GoalPreviewRecord :=
  s.previews.find? (fun p => p.id == id)

/-- Modelled from the spec: `goalPreviewRepository.upsertGoalPreview` is not
under `src/`; it preserves an explicitly supplied id (pure overwrite of any
record already stored under it), else allocates a new id. -/
def upsertGoalPreview (s : Store) (previewId : Option String)
    (userId sessionId : String) (data : PlanContainer) : GoalPreviewRecord × Store :=
  match previewId with
  | some pid =>
    let record : GoalPreviewRecord := ⟨pid, userId, sessionId, data⟩
    if s.previews.any (fun p => p.id == pid) then
      (record, { s with previews :=
          s.previews.map (fun p => if p.id = pid then record else p) })
    else
      (record, { s with previews := s.previews ++ [record] })
  | none =>
    let idAndStore := freshId s
    let record : GoalPreviewRecord := ⟨idAndStore.1, userId, sessionId, data⟩
    (record, { idAndStore.2 with previews := idAndStore.2.previews ++ [record] })

/-! ## Context snapshot builder (`contextService.ts`) -/

/-- The projection applied to each incomplete task by `buildUserContext`. -/
def projectTask (t : TaskRecord) : ContextTask :=
  ⟨t.id, t.title, t.goalId, t.milestoneId, t.date, t.estimatedHours, t.done⟩

/-- `buildUserContext` from `contextService.ts`: project and date-sort the
user's incomplete tasks, and compute the remaining weekly-hour budget. -/
def buildUserContext (s : Store) (user : UserRecord) : UserContextSnapshot :=
  let tasks := listIncompleteTasksByUser s user.id
  let upcomingTasks := sortByKey (fun t => t.date) (tasks.map projectTask)
  let activeGoalHours := sumActiveGoalHours s user.id none
  ⟨max 0 (user.availableHoursPerWeek - activeGoalHours), upcomingTasks⟩

/-! ## Validation helpers and task endpoints (`index.ts`) -/

/-- The date machinery of the JS runtime: `parseDay` stands for
`new Date(v)` followed by `toISOString().slice(0, 10)` (`none` when the string
does not parse), and `today` for the current calendar day. -/
structure DateEnv where
  parseDay : String → Option String
  today : String

/-- `validateIsoDate` from `index.ts` (`none` models an absent or non-string
value, which fails the `typeof` guard). -/
def validateIsoDate (env : DateEnv) (value : Option String) : Except ApiError String :=
  match value with
  | none => .error ⟨400, "date is required.", .nodetails⟩
  | some v =>
    if jsTrim v = "" then .error ⟨400, "date is required.", .nodetails⟩
    else
      match env.parseDay v with
      | some day => .ok day
      | none => .error ⟨400, "Invalid date format.", .nodetails⟩

/-- `validateEstimatedHours` from `index.ts` (`none` models an absent,
non-numeric or non-finite value). -/
def validateEstimatedHours (value : Option Int) : Except ApiError Int :=
  match value with
  | none => .error ⟨400, "estimatedHours must be a number.", .nodetails⟩
  | some v =>
    if v < 0 then .error ⟨400, "estimatedHours must be zero or positive.", .nodetails⟩
    else .ok v

/-- `assertOwnedGoal` from `index.ts`. -/
def assertOwnedGoal (s : Store) (goalId userId : String) : Except ApiError GoalRecord :=
  match getGoalById s goalId with
  | none => .error ⟨404, "Goal not found.", .nodetails⟩
  | some goal =>
    if goal.userId = userId then .ok goal else .error ⟨403, "Forbidden.", .nodetails⟩

/-- `assertOwnedMilestone` from `index.ts`. -/
def assertOwnedMilestone (s : Store) (milestoneId userId : String) :
    Except ApiError MilestoneRecord :=
  match getMilestoneById s milestoneId with
  | none => .error ⟨404, "Milestone not found.", .nodetails⟩
  | some milestone =>
    match assertOwnedGoal s milestone.goalId userId with
    | .error e => .error e
    | .ok _ => .ok milestone

/-- `assertOwnedTask` from `index.ts`. -/
def assertOwnedTask (s : Store) (taskId userId : String) :
    Except ApiError (TaskRecord × MilestoneRecord) :=
  match getTaskById s taskId with
  | none => .error ⟨404, "Task not found.", .nodetails⟩
  | some task =>
    match assertOwnedMilestone s task.milestoneId userId with
    | .error e => .error e
    | .ok milestone => .ok (task, milestone)

/-- `ensureNoTaskConflict` from `index.ts`: a 409 with the conflicting task ids
when some non-excluded task of the same user under the same milestone has the
same date. -/
def ensureNoTaskConflict (s : Store) (milestoneId userId date : String)
    (excludeTaskId : Option String) : Option ApiError :=
  let conflicting := (listTasksByMilestone s milestoneId).filter
    (fun t => notExcluded t.id excludeTaskId && t.userId == userId && t.date == date)
  if conflicting.length > 0 then
    some ⟨409, "Task date conflicts with an existing scheduled task or calendar event.",
      .taskConflict (conflicting.map (fun t => t.id))⟩
  else none

/-- Body of `POST /v1/milestones/:milestoneId/tasks`. -/
structure TaskCreateBody where
  title : Option String
  description : JsField (Option String)
  date : Option String
  estimatedHours : Option Int
deriving DecidableEq

/-- The `POST /v1/milestones/:milestoneId/tasks` handler from `index.ts`. -/
def postMilestoneTask (env : DateEnv) (caller : Option String) (milestoneId : String)
    (body : TaskCreateBody) (s : Store) : Except ApiError TaskRecord × Store :=
  match caller with
  | none => (.error ⟨401, "Unauthorized", .nodetails⟩, s)
  | some userId =>
    match assertOwnedMilestone s milestoneId userId with
    | .error e => (.error e, s)
    | .ok milestone =>
      match body.title with
      | none => (.error ⟨400, "title is required.", .nodetails⟩, s)
      | some title =>
        if jsTrim title = "" then (.error ⟨400, "title is required.", .nodetails⟩, s)
        else if body.description = .invalid then
          (.error ⟨400, "description must be a string or null.", .nodetails⟩, s)
        else
          match validateIsoDate env body.date with
          | .error e => (.error e, s)
          | .ok taskDate =>
            match validateEstimatedHours body.estimatedHours with
            | .error e => (.error e, s)
            | .ok hours =>
              match ensureNoTaskConflict s milestone.id userId taskDate none with
              | some e => (.error e, s)
              | none =>
                let descriptionOrNull : Option String :=
                  match body.description with
                  | .val v => v
                  | _ => none
                let created := createTask s milestone.goalId milestone.id userId
                  (jsTrim title) descriptionOrNull taskDate hours
                (.ok created.1, created.2)

/-- Body of `PATCH /v1/tasks/:taskId`. -/
structure TaskPatchBody where
  title : JsField String
  description : JsField (Option String)
  date : JsField String
  estimatedHours : JsField Int
  done : JsField Bool
deriving DecidableEq

/-- The `PATCH /v1/tasks/:taskId` handler from `index.ts`: validate each
supplied field in source order (the date branch re-runs the conflict check with
the task itself excluded), then apply a single partial update. -/
def patchTask (env : DateEnv) (caller : Option String) (taskId : String)
    (body : TaskPatchBody) (s : Store) : Except ApiError TaskRecord × Store :=
  match caller with
  | none => (.error ⟨401, "Unauthorized", .nodetails⟩, s)
  | some userId =>
    match assertOwnedTask s taskId userId with
    | .error e => (.error e, s)
    | .ok taskAndMilestone =>
      let task := taskAndMilestone.1
      let milestone := taskAndMilestone.2
      let titleUpd : Except ApiError (Option String) :=
        match body.title with
        | .absent => .ok none
        | .invalid => .error ⟨400, "Invalid title.", .nodetails⟩
        | .val t => if jsTrim t = "" then .error ⟨400, "Invalid title.", .nodetails⟩
            else .ok (some (jsTrim t))
      match titleUpd with
      | .error e => (.error e, s)
      | .ok newTitle =>
        let descriptionUpd : Except ApiError (Option (Option String)) :=
          match body.description with
          | .absent => .ok none
          | .invalid => .error ⟨400, "description must be a string or null.", .nodetails⟩
          | .val v => .ok (some v)
        match descriptionUpd with
        | .error e => (.error e, s)
        | .ok newDescription =>
          let dateUpd : Except ApiError (Option String) :=
            match body.date with
            | .absent => .ok none
            | .invalid => .error ⟨400, "date is required.", .nodetails⟩
            | .val v =>
              match validateIsoDate env (some v) with
              | .error e => .error e
              | .ok newDate =>
                match ensureNoTaskConflict s milestone.id userId newDate (some task.id) with
                | some e => .error e
                | none => .ok (some newDate)
          match dateUpd with
          | .error e => (.error e, s)
          | .ok newDate =>
            let hoursUpd : Except ApiError (Option Int) :=
              match body.estimatedHours with
              | .absent => .ok none
              | .invalid => .error ⟨400, "estimatedHours must be a number.", .nodetails⟩
              | .val q =>
                if q < 0 then
                  .error ⟨400, "estimatedHours must be zero or positive.", .nodetails⟩
                else .ok (some q)
            match hoursUpd with
            | .error e => (.error e, s)
            | .ok newHours =>
              let doneUpd : Except ApiError (Option Bool) :=
                match body.done with
                | .absent => .ok none
                | .invalid => .error ⟨400, "done must be a boolean.", .nodetails⟩
                | .val b => .ok (some b)
              match doneUpd with
              | .error e => (.error e, s)
              | .ok newDone =>
                let updates : TaskUpdates :=
                  ⟨newTitle, newDescription, newDate, newHours, newDone⟩
                if updates = ⟨none, none, none, none, none⟩ then
                  (.error ⟨400, "No updatable fields provided.", .nodetails⟩, s)
                else
                  (.ok (applyTaskUpdates task updates), updateTask s task.id updates)

/-! ## Goal creation and the finalization committer (`index.ts`) -/

/-- JS nullish coalescing `a ?? b` on optional values. -/
def jsOr (a b : Option α) : Option α :=
  match a with
  | some x => some x
  | none => b

/-- `extractPlanContainer` from `index.ts`: the payload's embedded
`goalPreview`, else its `plan`, else the stored preview's data, else the
payload object itself. -/
def extractPlanContainer (payload : AgentActionPayload)
    (preview : Option GoalPreviewRecord) : PlanContainer :=
  match payload.goalPreview with
  | some c => c
  | none =>
    match payload.plan with
    | some c => c
    | none =>
      match preview with
      | some p => p.data
      | none => payload.self

/-- `payload.goalPreviewId ?? payload.goalPreview?.id` (finalization step 1). -/
def resolvedPreviewId (payload : AgentActionPayload) : Option String :=
  jsOr payload.goalPreviewId
    (match payload.goalPreview with
     | some c => c.id
     | none => none)

/-- The stored preview consulted by finalization (looked up only when an id was
resolved). -/
def resolvedPreviewRecord (s : Store) (payload : AgentActionPayload) :
    Option GoalPreviewRecord :=
  match resolvedPreviewId payload with
  | some pid => findGoalPreviewById s pid
  | none => none

/-- The plan container finalization works on. -/
def resolvedPlanContainer (s : Store) (payload : AgentActionPayload) : PlanContainer :=
  extractPlanContainer payload (resolvedPreviewRecord s payload)

/-- `planContainer.goal ?? {}`. -/
def resolvedGoalPlan (s : Store) (payload : AgentActionPayload) : AgentGoalPlan :=
  (resolvedPlanContainer s payload).goal.getD ⟨none, none, none, none, none⟩

/-- `Array.isArray(planContainer.milestones) ? ... : []`. -/
def resolvedMilestonePlans (s : Store) (payload : AgentActionPayload) :
    List AgentMilestonePlan :=
  (resolvedPlanContainer s payload).milestones.getD []

/-- `typeof v === 'string' && v.trim().length > 0 ? v.trim() : dflt` — the
string-or-placeholder idiom used for goal, milestone and task titles. -/
def defaultTrimmed (value : Option String) (dflt : String) : String :=
  match value with
  | some t => if jsTrim t = "" then dflt else jsTrim t
  | none => dflt

/-- `computePlanTaskHours` from `index.ts`: sum of `max(0, estimatedHours)`
over all nested plan tasks, non-numeric/non-finite values counted as 0. -/
def computePlanTaskHours (milestones : List AgentMilestonePlan) : Int :=
  milestones.foldl
    (fun goalTotal milestone =>
      goalTotal +
        (milestone.tasks.getD []).foldl
          (fun acc task =>
            acc + (match task.estimatedHours with
                   | some h => max 0 h
                   | none => 0)) 0) 0

/-- The goal title finalization commits. -/
def resolvedGoalTitle (s : Store) (payload : AgentActionPayload) : String :=
  defaultTrimmed (resolvedGoalPlan s payload).title "Untitled Goal"

/-- The goal description finalization commits. -/
def resolvedDescription (s : Store) (payload : AgentActionPayload) : Option String :=
  (resolvedGoalPlan s payload).description

/-- The weekly hours finalization commits: `max(0, minHoursPerWeek)` when the
plan carries a finite number, else the nested-task hour sum. -/
def resolvedPlanHours (s : Store) (payload : AgentActionPayload) : Int :=
  match (resolvedGoalPlan s payload).minHoursPerWeek with
  | some h => max 0 h
  | none => computePlanTaskHours (resolvedMilestonePlans s payload)

/-- The priority finalization commits (`Math.trunc(priority)`, default 0;
`Math.trunc` is the identity on the integral values of this embedding). -/
def resolvedPriority (s : Store) (payload : AgentActionPayload) : Int :=
  match (resolvedGoalPlan s payload).priority with
  | some p => p
  | none => 0

/-- The color finalization commits (default none). -/
def resolvedColor (s : Store) (payload : AgentActionPayload) : Option Int :=
  (resolvedGoalPlan s payload).color

/-- `coerceIsoDayString` from `index.ts`: parse the supplied string to a
calendar day, falling back to the current day. -/
def coerceIsoDayString (env : DateEnv) (value : Option String) : String :=
  match value with
  | some v => if jsTrim v = "" then env.today else (env.parseDay v).getD env.today
  | none => env.today

/-- `isValidMilestoneStatus` from `index.ts`. -/
def isValidMilestoneStatus (v : String) : Bool :=
  v == "blocked" || v == "in_progress" || v == "finished"

/-- The message of the capacity-conflict error raised on goal creation. -/
def capacityInsufficientMessage (available total : Int) : String :=
  "Available hours (" ++ toString available ++
    "h/week) are insufficient for current active goals (" ++ toString total ++
    "h/week with new goal)."

/-- The task-creation loop of finalization (titles defaulted, hours clamped,
dates coerced, `done` applied after creation). -/
def createPlanTasks (env : DateEnv) (goalId milestoneId userId : String) :
    List AgentTaskPlan → Store → List String × Store
  | [], s => ([], s)
  | taskPlan :: rest, s =>
    let taskTitle := defaultTrimmed taskPlan.title "Task"
    let estimatedHours :=
      match taskPlan.estimatedHours with
      | some h => max 0 h
      | none => 0
    let date := coerceIsoDayString env taskPlan.date
    let created := createTask s goalId milestoneId userId taskTitle
      taskPlan.description date estimatedHours
    let afterDone := if taskPlan.done then setTaskDone created.2 created.1.id true else created.2
    let restResult := createPlanTasks env goalId milestoneId userId rest afterDone
    (created.1.id :: restResult.1, restResult.2)

/-- The milestone-creation loop of finalization (titles defaulted, an optional
status override applied when the plan carries a valid differing status). -/
def createPlanMilestones (env : DateEnv) (goalId userId : String) :
    List AgentMilestonePlan → Store → List String × List String × Store
  | [], s => ([], [], s)
  | milestonePlan :: rest, s =>
    let milestoneTitle := defaultTrimmed milestonePlan.title "Milestone"
    let created := createMilestone s goalId milestoneTitle milestonePlan.description none
    let afterStatus :=
      match milestonePlan.status with
      | some st =>
        if isValidMilestoneStatus st && st != created.1.status then
          updateMilestoneStatus created.2 created.1.id st
        else created.2
      | none => created.2
    let tasksResult := createPlanTasks env goalId created.1.id userId
      (milestonePlan.tasks.getD []) afterStatus
    let restResult := createPlanMilestones env goalId userId rest tasksResult.2
    (created.1.id :: restResult.1, tasksResult.1 ++ restResult.2.1, restResult.2.2)

/-- The value returned by a successful finalization. -/
structure FinalizeResult where
  goal : GoalRecord
  milestoneIds : List String
  taskIds : List String
  goalPreviewId : Option String
deriving DecidableEq

/-- `finalizeGoalPlanFromAgentPayload` from `index.ts`: resolve the plan,
default the goal fields, re-validate capacity (reject with the 409 capacity
payload carrying the active-goal summaries plus a synthetic `pending` entry),
then commit goal, milestones and tasks. -/
def finalizeGoalPlanFromAgentPayload (env : DateEnv) (user : UserRecord)
    (payload : AgentActionPayload) (s : Store) :
    Except ApiError FinalizeResult × Store :=
  let goalTitle := resolvedGoalTitle s payload
  let planHours := resolvedPlanHours s payload
  let existingActiveHours := sumActiveGoalHours s user.id none
  let totalRequiredHours := existingActiveHours + planHours
  if totalRequiredHours > user.availableHoursPerWeek then
    (.error ⟨409, capacityInsufficientMessage user.availableHoursPerWeek totalRequiredHours,
        .capacity user.availableHoursPerWeek totalRequiredHours
          (collectActiveGoalSummaries s user.id none ++ [⟨"pending", goalTitle, planHours⟩])⟩,
      s)
  else
    let createdGoal := createGoal s user.id goalTitle (resolvedDescription s payload)
      planHours (resolvedPriority s payload) (resolvedColor s payload)
    let loops := createPlanMilestones env createdGoal.1.id user.id
      (resolvedMilestonePlans s payload) createdGoal.2
    (.ok ⟨createdGoal.1, loops.1, loops.2.1,
        jsOr ((resolvedPreviewRecord s payload).map (fun p => p.id))
          (resolvedPreviewId payload)⟩,
      loops.2.2)

/-- Body of `POST /v1/goals`. -/
structure GoalCreateBody where
  title : Option String
  description : Option String
  minHoursPerWeek : Option Int
  priority : JsField Int
  color : JsField Int
deriving DecidableEq

/-- The `POST /v1/goals` handler from `index.ts`: validate fields, check the
weekly-hour budget against the sum of active-goal hours, then create the goal.
On a capacity conflict the 409 details carry `collectActiveGoalSummaries` with
no extra entry for the pending goal. -/
def postGoals (caller : Option String) (body : GoalCreateBody) (s : Store) :
    Except ApiError GoalRecord × Store :=
  match caller with
  | none => (.error ⟨401, "Unauthorized", .nodetails⟩, s)
  | some userId =>
    match findUserById s userId with
    | none => (.error ⟨404, "User not found.", .nodetails⟩, s)
    | some user =>
      match body.title with
      | none => (.error ⟨400, "title is required.", .nodetails⟩, s)
      | some title =>
        if jsTrim title = "" then (.error ⟨400, "title is required.", .nodetails⟩, s)
        else
          match body.minHoursPerWeek with
          | none => (.error ⟨400, "minHoursPerWeek must be a non-negative number.", .nodetails⟩, s)
          | some minHoursPerWeek =>
            if minHoursPerWeek < 0 then
              (.error ⟨400, "minHoursPerWeek must be a non-negative number.", .nodetails⟩, s)
            else
              match body.priority with
              | .absent => (.error ⟨400, "priority must be an integer.", .nodetails⟩, s)
              | .invalid => (.error ⟨400, "priority must be an integer.", .nodetails⟩, s)
              | .val priority =>
                if body.color = JsField.invalid then
                  (.error ⟨400, "color must be a number.", .nodetails⟩, s)
                else
                  let existingHours := sumActiveGoalHours s userId none
                  let totalHours := existingHours + minHoursPerWeek
                  if totalHours > user.availableHoursPerWeek then
                    (.error ⟨409,
                        capacityInsufficientMessage user.availableHoursPerWeek totalHours,
                        .capacity user.availableHoursPerWeek totalHours
                          (collectActiveGoalSummaries s userId none)⟩, s)
                  else
                    let colorOpt : Option Int :=
                      match body.color with
                      | JsField.val c => some c
                      | _ => none
                    let created := createGoal s userId (jsTrim title) body.description
                      minHoursPerWeek priority colorOpt
                    (.ok created.1, created.2)

/-- Decidable equality on handler results, used to evaluate concrete runs. -/
instance exceptDecEq {ε α : Type} [DecidableEq ε] [DecidableEq α] :
    DecidableEq (Except ε α)
  | .error e1, .error e2 =>
    if h : e1 = e2 then .isTrue (by rw [h]) else .isFalse (by intro hc; cases hc; exact h rfl)
  | .error _, .ok _ => .isFalse (by intro hc; cases hc)
  | .ok _, .error _ => .isFalse (by intro hc; cases hc)
  | .ok a1, .ok a2 =>
    if h : a1 = a2 then .isTrue (by rw [h]) else .isFalse (by intro hc; cases hc; exact h rfl)

/-! ## The agent-message orchestrator (`POST /v1/agent/goal/session:message`) -/

/-- The engine's state fragment; every field is read defensively (`?.`/`??`)
by the handler, so each is optional. -/
structure AgentRespState where
  state : Option StatusTag
  iteration : Option Int
  sessionActive : Option Bool
  goalPreviewId : Option String
deriving DecidableEq

/-- An agent action (`type` is the runtime string tag). -/
structure AgentAction where
  type : String
  payload : Option AgentActionPayload
deriving DecidableEq

/-- `AgentServiceResponse` as consumed by the handler. -/
structure AgentServiceResponse where
  reply : String
  action : Option AgentAction
  state : Option AgentRespState
  context : Option UserContextSnapshot
deriving DecidableEq

/-- The data `buildAgentInvocationPayload` assembles for the engine run call
(the `parts` wire encoding of `agentService.ts` is elided — the claims treat
the engine as an opaque function of this data). -/
structure AgentInvocationPayload where
  userId : String
  sessionId : String
  message : String
  goalPreview : Option PlanContainer
  availableHoursLeft : Int
  upcomingTasks : List ContextTask
deriving DecidableEq

/-- `buildAgentInvocationPayload` from `agentService.ts`. -/
def buildAgentInvocationPayload (userId sessionId message : String)
    (goalPreview : Option PlanContainer) (availableHoursLeft : Int)
    (upcomingTasks : List ContextTask) : AgentInvocationPayload :=
  ⟨userId, sessionId, message, goalPreview, availableHoursLeft, upcomingTasks⟩

/-- The per-request environment: date handling plus the two external
reasoning-engine calls (bootstrap and run), modelled as oracles that either
return a value or fail with an `ApiError`. -/
structure Env where
  date : DateEnv
  initRemote : String → String → Except ApiError Unit
  invokeAgent : AgentInvocationPayload → Except ApiError AgentServiceResponse

/-- `extractPreviewPayload` from `index.ts`. -/
def extractPreviewPayload (payload : Option AgentActionPayload) :
    Option String × PlanContainer :=
  match payload with
  | none => (none, ⟨none, none, none⟩)
  | some p =>
    let data := p.goalPreview.getD p.self
    (jsOr p.goalPreviewId data.id, data)

/-- Body of `POST /v1/agent/goal/session:message`. -/
structure MessageBody where
  sessionId : Option String
  message : Option String
  goalPreview : Option PlanContainer
  userId : JsField String
deriving DecidableEq

/-- The JSON the handler responds with (reduced to the session-state fields;
the echoed action payload is not inspected by any claim). -/
structure MessageResponse where
  sessionId : String
  reply : String
  state : StatusTag
  iteration : Int
  sessionActive : Bool
  goalPreviewId : Option String
deriving DecidableEq

/-- The final session update (`updateSession` call of the handler): state,
iteration and goalPreviewId fall back from the engine state to locally
computed values, then the response is built from the updated record. -/
def finishSessionUpdate (session : SessionStateRecord)
    (agentResponse : AgentServiceResponse) (goalPreviewId : Option String)
    (sessionActive : Bool) (updatedContext : UserContextSnapshot) (s3 : Store) :
    Except ApiError MessageResponse × Store :=
  let newState : StatusTag :=
    match agentResponse.state with
    | some st => st.state.getD session.state
    | none => session.state
  let newIteration : Int :=
    match agentResponse.state with
    | some st => st.iteration.getD (session.iteration + 1)
    | none => session.iteration + 1
  let newPreviewId : Option String :=
    jsOr (match agentResponse.state with
          | some st => st.goalPreviewId
          | none => none) goalPreviewId
  let upd := updateSession s3 session newState newIteration newPreviewId sessionActive
    updatedContext
  (.ok ⟨upd.1.id, agentResponse.reply, upd.1.state, upd.1.iteration,
    upd.1.sessionActive, upd.1.goalPreviewId⟩, upd.2)

/-- The post-engine reconciliation of the handler: branch on `action.type`
(`save_preview` upserts the preview, `finalize_goal` commits the plan, forces
`sessionActive := false` and rebuilds the context), then persist the session.
When the response carries no `action` object, the session update still
happens, after which the handler's unguarded `agentResponse.action.payload`
read throws and surfaces as a 500. -/
def applyAgentOutcome (env : Env) (userId : String) (user : UserRecord)
    (session : SessionStateRecord) (contextSnapshot : UserContextSnapshot)
    (agentResponse : AgentServiceResponse) (s2 : Store) :
    Except ApiError MessageResponse × Store :=
  let sessionActive0 : Bool :=
    match agentResponse.state with
    | some st => st.sessionActive.getD session.sessionActive
    | none => session.sessionActive
  let updatedContext0 := agentResponse.context.getD contextSnapshot
  match agentResponse.action with
  | some act =>
    if act.type = "save_preview" then
      let preview := extractPreviewPayload act.payload
      let upserted := upsertGoalPreview s2 preview.1 userId session.id preview.2
      finishSessionUpdate session agentResponse (some upserted.1.id) sessionActive0
        updatedContext0 upserted.2
    else if act.type = "finalize_goal" then
      let finalizePayload := act.payload.getD ⟨none, none, none, ⟨none, none, none⟩⟩
      let finalizeRun := finalizeGoalPlanFromAgentPayload env.date user finalizePayload s2
      match finalizeRun.1 with
      | .error e => (.error e, finalizeRun.2)
      | .ok finalizeResult =>
        finishSessionUpdate session agentResponse
          (jsOr finalizeResult.goalPreviewId session.goalPreviewId) false
          (buildUserContext finalizeRun.2 user) finalizeRun.2
    else
      finishSessionUpdate session agentResponse session.goalPreviewId sessionActive0
        updatedContext0 s2
  | none =>
    let finished := finishSessionUpdate session agentResponse session.goalPreviewId
      sessionActive0 updatedContext0 s2
    (.error ⟨500, "Internal server error.", .nodetails⟩, finished.2)

/-- The authorized core of the message handler: resolve the session (400 when
absent, 401 when owned by another user, 409 when no longer active), snapshot
the context, resolve the preview to forward, append the user's message, run
the one-time bootstrap when `iteration = 0`, invoke the engine, append its
reply, then reconcile. -/
def sessionMessageCore (env : Env) (userId sessionId message : String)
    (goalPreview : Option PlanContainer) (s : Store) :
    Except ApiError MessageResponse × Store :=
  match findSessionById s sessionId with
  | none =>
    (.error ⟨400, "Session " ++ sessionId ++ " not found.", .nodetails⟩, s)
  | some session =>
    if session.userId ≠ userId then (.error ⟨401, "Unauthorized.", .nodetails⟩, s)
    else if session.sessionActive = false then
      (.error ⟨409, "Session " ++ sessionId ++
          " is finalized and cannot accept new messages.", .nodetails⟩, s)
    else
      match findUserById s userId with
      | none => (.error ⟨404, "User not found.", .nodetails⟩, s)
      | some user =>
        let contextSnapshot := buildUserContext s user
        let previewForContext : Option PlanContainer :=
          match goalPreview with
          | some gp => some gp
          | none =>
            match session.goalPreviewId with
            | some pid => (findGoalPreviewById s pid).map (fun p => p.data)
            | none => none
        let s1 := appendChatMessage s session.chatId session.id "user" message
        match (if session.iteration = 0 then env.initRemote userId session.id
               else .ok ()) with
        | .error e => (.error e, s1)
        | .ok _ =>
          match env.invokeAgent (buildAgentInvocationPayload userId session.id message
              previewForContext contextSnapshot.availableHoursLeft
              contextSnapshot.upcomingTasks) with
          | .error e => (.error e, s1)
          | .ok agentResponse =>
            let s2 := appendChatMessage s1 session.chatId session.id "agent"
              agentResponse.reply
            applyAgentOutcome env userId user session contextSnapshot agentResponse s2

/-- The `POST /v1/agent/goal/session:message` handler from `index.ts`:
authentication, body validation, the body-level `userId` guard, then the core. -/
def handleSessionMessage (env : Env) (caller : Option String) (body : MessageBody)
    (s : Store) : Except ApiError MessageResponse × Store :=
  match caller with
  | none => (.error ⟨401, "Unauthorized", .nodetails⟩, s)
  | some userId =>
    match body.sessionId with
    | none => (.error ⟨400, "sessionId is required.", .nodetails⟩, s)
    | some sessionId =>
      if jsTrim sessionId = "" then
        (.error ⟨400, "sessionId is required.", .nodetails⟩, s)
      else
        match body.message with
        | none => (.error ⟨400, "message is required.", .nodetails⟩, s)
        | some message =>
          if jsTrim message = "" then
            (.error ⟨400, "message is required.", .nodetails⟩, s)
          else
            match body.userId with
            | .absent => sessionMessageCore env userId sessionId message body.goalPreview s
            | .invalid => (.error ⟨401, "Unauthorized.", .nodetails⟩, s)
            | .val v =>
              if v = userId then
                sessionMessageCore env userId sessionId message body.goalPreview s
              else (.error ⟨401, "Unauthorized.", .nodetails⟩, s)

/-! ## Theorems

General lemmas about the embedded operations, followed by the claim theorems
with their witnesses and counterexamples. -/

theorem insertByKey_perm [LinearOrder β] (key : α → β) (a : α) :
    ∀ l : List α, List.Perm (insertByKey key a l) (a :: l) := by
  intro l
  induction l with
  | nil => simp [insertByKey]
  | cons b t ih =>
    by_cases h : key b < key a
    · simp only [insertByKey, if_pos h]
      exact ((ih.cons b).trans (List.Perm.swap a b t))
    · simp [insertByKey, if_neg h]

theorem sortByKey_perm [LinearOrder β] (key : α → β) :
    ∀ l : List α, List.Perm (sortByKey key l) l := by
  intro l
  induction l with
  | nil => simp [sortByKey]
  | cons a t ih =>
    exact (insertByKey_perm key a (sortByKey key t)).trans (ih.cons a)

theorem insertByKey_sorted [LinearOrder β] (key : α → β) (a : α) (l : List α)
    (hl : l.Pairwise (fun x y => key x ≤ key y)) :
    (insertByKey key a l).Pairwise (fun x y => key x ≤ key y) := by
  induction l with
  | nil => simp [insertByKey]
  | cons b t ih =>
    rcases List.pairwise_cons.mp hl with ⟨hb, ht⟩
    by_cases h : key b < key a
    · simp only [insertByKey, if_pos h]
      refine List.pairwise_cons.mpr ⟨?_, ih ht⟩
      intro x hx
      rcases List.mem_cons.mp ((insertByKey_perm key a t).mem_iff.mp hx) with hxa | hxt
      · exact hxa ▸ le_of_lt h
      · exact hb x hxt
    · simp only [insertByKey, if_neg h]
      refine List.pairwise_cons.mpr ⟨?_, hl⟩
      intro x hx
      rcases List.mem_cons.mp hx with hxb | hxt
      · exact hxb ▸ le_of_not_lt h
      · exact le_trans (le_of_not_lt h) (hb x hxt)

theorem sortByKey_sorted [LinearOrder β] (key : α → β) (l : List α) :
    (sortByKey key l).Pairwise (fun x y => key x ≤ key y) := by
  induction l with
  | nil => simp [sortByKey]
  | cons a t ih => exact insertByKey_sorted key a _ ih

/-- Stability: for every key value `d`, the `d`-keyed elements of the output
are exactly the `d`-keyed elements of the input, in the same order. -/
theorem insertByKey_filter [LinearOrder β] [DecidableEq β] (key : α → β) (a : α)
    (d : β) : ∀ l : List α,
    (insertByKey key a l).filter (fun x => decide (key x = d)) =
      if key a = d then a :: l.filter (fun x => decide (key x = d))
      else l.filter (fun x => decide (key x = d)) := by
  intro l
  induction l with
  | nil =>
    by_cases h : key a = d <;> simp [insertByKey, List.filter, h]
  | cons b t ih =>
    by_cases hlt : key b < key a
    · simp only [insertByKey, if_pos hlt]
      by_cases hb : key b = d
      · have had : ¬ key a = d := by
          intro had
          rw [had, ← hb] at hlt
          exact lt_irrefl _ hlt
        simp [List.filter_cons, hb, had, ih]
      · by_cases ha : key a = d <;> simp [List.filter_cons, hb, ha, ih]
    · simp only [insertByKey, if_neg hlt]
      by_cases ha : key a = d <;> by_cases hb : key b = d <;>
        simp [List.filter_cons, ha, hb]

theorem sortByKey_filter [LinearOrder β] [DecidableEq β] (key : α → β) (d : β) :
    ∀ l : List α,
    (sortByKey key l).filter (fun x => decide (key x = d)) =
      l.filter (fun x => decide (key x = d)) := by
  intro l
  induction l with
  | nil => simp [sortByKey]
  | cons a t ih =>
    simp only [sortByKey, insertByKey_filter, ih]
    by_cases ha : key a = d <;> simp [List.filter_cons, ha]

/-- `projectTask` preserves the date, so date-filtering commutes with it. -/
theorem filter_map_projectTask (d : String) : ∀ l : List TaskRecord,
    (l.map projectTask).filter (fun x => decide (x.date = d)) =
      (l.filter (fun t => decide (t.date = d))).map projectTask := by
  intro l
  induction l with
  | nil => rfl
  | cons t rest ih =>
    by_cases h : t.date = d <;>
      simp [List.filter_cons, projectTask, h, ih]

/-- C8: `buildUserContext` returns `availableHoursLeft =
max(0, availableHoursPerWeek − Σ active-goal hours)`, and `upcomingTasks` is
exactly the user's incomplete tasks projected to the context shape, sorted
ascending by date with ties kept in original listing order (stable sort). -/
theorem buildUserContext_spec (s : Store) (user : UserRecord) :
    (buildUserContext s user).availableHoursLeft =
        max 0 (user.availableHoursPerWeek - sumActiveGoalHours s user.id none) ∧
    List.Perm (buildUserContext s user).upcomingTasks
        ((s.tasks.filter (fun t => t.userId == user.id && t.done == false)).map
          projectTask) ∧
    (buildUserContext s user).upcomingTasks.Pairwise (fun a b => a.date ≤ b.date) ∧
    ∀ d : String,
      (buildUserContext s user).upcomingTasks.filter (fun x => decide (x.date = d)) =
        ((s.tasks.filter (fun t => t.userId == user.id && t.done == false)).map
            projectTask).filter (fun x => decide (x.date = d)) := by
  refine ⟨rfl, ?_, ?_, ?_⟩
  · exact (sortByKey_perm (fun t => t.date) _).trans
      ((sortByKey_perm (fun t => t.date) _).map projectTask)
  · show (sortByKey (fun t : ContextTask => t.date)
        ((listIncompleteTasksByUser s user.id).map projectTask)).Pairwise
        (fun a b => a.date ≤ b.date)
    exact sortByKey_sorted (fun t : ContextTask => t.date) _
  · intro d
    show (sortByKey (fun t => t.date)
        ((listIncompleteTasksByUser s user.id).map projectTask)).filter
          (fun x => decide (x.date = d)) = _
    rw [sortByKey_filter (fun t : ContextTask => t.date) d]
    rw [filter_map_projectTask d, filter_map_projectTask d]
    unfold listIncompleteTasksByUser
    rw [sortByKey_filter (fun t : TaskRecord => t.date) d]

theorem notExcluded_none (id : String) : notExcluded id none = true := rfl

/-- The conflict list computed on a task-create (no exclusion) is the list of
same-milestone same-user same-date tasks. -/
theorem conflict_list_create (l : List TaskRecord) (m u d : String) :
    (l.filter (fun t => t.milestoneId == m)).filter
        (fun t => notExcluded t.id none && t.userId == u && t.date == d) =
      l.filter (fun t => t.milestoneId == m && (t.userId == u && t.date == d)) := by
  rw [List.filter_filter]
  apply List.filter_congr
  intro x _
  cases hx1 : x.milestoneId == m <;> cases hx2 : x.userId == u <;>
    cases hx3 : x.date == d <;> simp [notExcluded, hx1, hx2, hx3]

/-- The conflict list computed on a task date-update excludes the updated task
itself. -/
theorem conflict_list_update (l : List TaskRecord) (m u d ex : String) :
    (l.filter (fun t => t.milestoneId == m)).filter
        (fun t => notExcluded t.id (some ex) && t.userId == u && t.date == d) =
      l.filter (fun t => t.id != ex && (t.milestoneId == m && (t.userId == u && t.date == d))) := by
  rw [List.filter_filter]
  apply List.filter_congr
  intro x _
  cases hx0 : x.id == ex <;> cases hx1 : x.milestoneId == m <;>
    cases hx2 : x.userId == u <;> cases hx3 : x.date == d <;>
    simp [notExcluded, hx0, hx1, hx2, hx3]

/-- C4: creating a task under a milestone, or updating a task's date, is
rejected with a 409 listing the conflicting task ids exactly when some other
task of the same user under the same milestone already has the same date;
otherwise the operation succeeds (a same-date task under a different milestone
is not a conflict because the conflict list is scoped by `milestoneId`). -/
theorem C4_task_date_conflict (env : DateEnv) (s : Store)
    (userId milestoneId taskId : String)
    (milestone : MilestoneRecord) (goal : GoalRecord) (task : TaskRecord)
    (cbody : TaskCreateBody) (pbody : TaskPatchBody)
    (title dstr day : String) (q : Int)
    (hmil : getMilestoneById s milestoneId = some milestone)
    (hgoal : getGoalById s milestone.goalId = some goal)
    (hown : goal.userId = userId)
    (htitle : cbody.title = some title) (htrim : ¬ jsTrim title = "")
    (hdesc : ¬ cbody.description = JsField.invalid)
    (hdate : cbody.date = some dstr) (hdtrim : ¬ jsTrim dstr = "")
    (hparse : env.parseDay dstr = some day)
    (hhours : cbody.estimatedHours = some q) (hq : ¬ q < 0)
    (htask : getTaskById s taskId = some task)
    (hmil2 : getMilestoneById s task.milestoneId = some milestone)
    (hpbody : pbody = ⟨JsField.absent, JsField.absent, JsField.val dstr,
        JsField.absent, JsField.absent⟩) :
    ((s.tasks.filter
        (fun t => t.milestoneId == milestone.id && (t.userId == userId && t.date == day)) ≠ [] →
      postMilestoneTask env (some userId) milestoneId cbody s =
        (.error ⟨409, "Task date conflicts with an existing scheduled task or calendar event.",
            .taskConflict ((s.tasks.filter
              (fun t => t.milestoneId == milestone.id &&
                (t.userId == userId && t.date == day))).map (fun t => t.id))⟩, s)) ∧
     (s.tasks.filter
        (fun t => t.milestoneId == milestone.id && (t.userId == userId && t.date == day)) = [] →
      ∃ t s', postMilestoneTask env (some userId) milestoneId cbody s = (.ok t, s') ∧
        s'.tasks = s.tasks ++ [t] ∧ t.milestoneId = milestone.id ∧ t.userId = userId ∧
        t.date = day ∧ t.done = false)) ∧
    ((s.tasks.filter
        (fun t => t.id != task.id && (t.milestoneId == milestone.id &&
          (t.userId == userId && t.date == day))) ≠ [] →
      patchTask env (some userId) taskId pbody s =
        (.error ⟨409, "Task date conflicts with an existing scheduled task or calendar event.",
            .taskConflict ((s.tasks.filter
              (fun t => t.id != task.id && (t.milestoneId == milestone.id &&
                (t.userId == userId && t.date == day)))).map (fun t => t.id))⟩, s)) ∧
     (s.tasks.filter
        (fun t => t.id != task.id && (t.milestoneId == milestone.id &&
          (t.userId == userId && t.date == day))) = [] →
      patchTask env (some userId) taskId pbody s =
        (.ok (applyTaskUpdates task ⟨none, none, some day, none, none⟩),
          updateTask s task.id ⟨none, none, some day, none, none⟩))) := by
  constructor
  · constructor
    · intro hne
      simp only [postMilestoneTask, assertOwnedMilestone, assertOwnedGoal, hmil, hgoal,
        if_pos hown, htitle, if_neg htrim, if_neg hdesc, hdate, validateIsoDate,
        if_neg hdtrim, hparse, hhours, validateEstimatedHours, if_neg hq,
        ensureNoTaskConflict, listTasksByMilestone, conflict_list_create]
      rw [if_pos (by exact List.length_pos.mpr hne)]
    · intro hemp
      have hrun : postMilestoneTask env (some userId) milestoneId cbody s =
          (.ok (createTask s milestone.goalId milestone.id userId (jsTrim title)
              (match cbody.description with | JsField.val v => v | _ => none) day q).1,
            (createTask s milestone.goalId milestone.id userId (jsTrim title)
              (match cbody.description with | JsField.val v => v | _ => none) day q).2) := by
        simp only [postMilestoneTask, assertOwnedMilestone, assertOwnedGoal, hmil, hgoal,
          if_pos hown, htitle, if_neg htrim, if_neg hdesc, hdate, validateIsoDate,
          if_neg hdtrim, hparse, hhours, validateEstimatedHours, if_neg hq,
          ensureNoTaskConflict, listTasksByMilestone, conflict_list_create, hemp]
        simp
      exact ⟨_, _, hrun, rfl, rfl, rfl, rfl, rfl⟩
  · constructor
    · intro hne
      simp only [patchTask, assertOwnedTask, assertOwnedMilestone, assertOwnedGoal,
        htask, hmil2, hgoal, if_pos hown, hpbody, validateIsoDate, if_neg hdtrim,
        hparse, ensureNoTaskConflict, listTasksByMilestone, conflict_list_update]
      rw [if_pos (by exact List.length_pos.mpr hne)]
    · intro hemp
      simp only [patchTask, assertOwnedTask, assertOwnedMilestone, assertOwnedGoal,
        htask, hmil2, hgoal, if_pos hown, hpbody, validateIsoDate, if_neg hdtrim,
        hparse, ensureNoTaskConflict, listTasksByMilestone, conflict_list_update, hemp]
      simp

/-! ## Preservation lemmas for the finalization loops -/

theorem createPlanTasks_preserves (env : DateEnv) (gid mid uid : String) :
    ∀ (plans : List AgentTaskPlan) (s : Store),
      (createPlanTasks env gid mid uid plans s).2.goals = s.goals ∧
      (createPlanTasks env gid mid uid plans s).2.sessions = s.sessions ∧
      (createPlanTasks env gid mid uid plans s).2.chats = s.chats := by
  intro plans
  induction plans with
  | nil => intro s; exact ⟨rfl, rfl, rfl⟩
  | cons p rest ih =>
    intro s
    simp only [createPlanTasks]
    refine ⟨?_, ?_, ?_⟩
    · rw [(ih _).1]
      split <;> simp [setTaskDone, updateTask, createTask, freshId]
    · rw [(ih _).2.1]
      split <;> simp [setTaskDone, updateTask, createTask, freshId]
    · rw [(ih _).2.2]
      split <;> simp [setTaskDone, updateTask, createTask, freshId]

theorem createPlanMilestones_preserves (env : DateEnv) (gid uid : String) :
    ∀ (plans : List AgentMilestonePlan) (s : Store),
      (createPlanMilestones env gid uid plans s).2.2.goals = s.goals ∧
      (createPlanMilestones env gid uid plans s).2.2.sessions = s.sessions ∧
      (createPlanMilestones env gid uid plans s).2.2.chats = s.chats := by
  intro plans
  induction plans with
  | nil => intro s; exact ⟨rfl, rfl, rfl⟩
  | cons p rest ih =>
    intro s
    simp only [createPlanMilestones]
    refine ⟨?_, ?_, ?_⟩
    · rw [(ih _).1, (createPlanTasks_preserves env gid _ uid _ _).1]
      split <;> (try split) <;> simp [updateMilestoneStatus, createMilestone, freshId]
    · rw [(ih _).2.1, (createPlanTasks_preserves env gid _ uid _ _).2.1]
      split <;> (try split) <;> simp [updateMilestoneStatus, createMilestone, freshId]
    · rw [(ih _).2.2, (createPlanTasks_preserves env gid _ uid _ _).2.2]
      split <;> (try split) <;> simp [updateMilestoneStatus, createMilestone, freshId]

/-- `reduce` over `+` is the sum of the mapped list. -/
theorem foldl_add_eq_sum (f : α → Int) : ∀ (l : List α) (c : Int),
    l.foldl (fun acc x => acc + f x) c = c + (l.map f).sum := by
  intro l
  induction l with
  | nil => intro c; simp
  | cons x rest ih =>
    intro c
    simp only [List.foldl_cons, List.map_cons, List.sum_cons, ih]
    ring

/-- `computePlanTaskHours` written as an explicit double sum. -/
theorem computePlanTaskHours_eq_sum (ms : List AgentMilestonePlan) :
    computePlanTaskHours ms =
      (ms.map (fun mp => ((mp.tasks.getD []).map (fun tp =>
        match tp.estimatedHours with
        | some h => max 0 h
        | none => 0)).sum)).sum := by
  unfold computePlanTaskHours
  simp only [foldl_add_eq_sum, zero_add]

/-- C1 counterexample: a user with `availableHoursPerWeek = 20` and one active
18h goal; creating a goal needing 5h through `POST /v1/goals` is rejected with
`requiredHoursPerWeek = 23`, but the `conflictingGoals` details list holds only
the competing active goal — the direct creation path pushes no entry for the
pending goal (only the finalization path does). -/
theorem C1_counterexample :
    postGoals (some "u1")
        ⟨some "New", none, some 5, JsField.val 0, JsField.absent⟩
        ⟨[⟨"u1", 20⟩], [⟨"g1", "u1", "Existing", none, "active", none, 18, 0⟩],
          [], [], [], [], [], 0⟩ =
      (.error ⟨409, capacityInsufficientMessage 20 23,
          .capacity 20 23 [⟨"g1", "Existing", 18⟩]⟩,
        ⟨[⟨"u1", 20⟩], [⟨"g1", "u1", "Existing", none, "active", none, 18, 0⟩],
          [], [], [], [], [], 0⟩) := by
  decide

/-- C1 (amended): on both creation paths the operation is rejected with a 409
capacity error exactly when the active-goal hour sum plus the new goal's hours
exceeds `availableHoursPerWeek`, with details carrying the budget, the required
total and the competing active goals — but the entry for the pending goal is
appended only on the finalize path, not by direct `POST /v1/goals`; otherwise
the goal is created. -/
theorem C1_capacity_check (s : Store) (userId title : String) (user : UserRecord)
    (body : GoalCreateBody) (mh pr : Int)
    (env : DateEnv) (fuser : UserRecord) (fpayload : AgentActionPayload) (fs : Store)
    (huser : findUserById s userId = some user)
    (htitle : body.title = some title) (htrim : ¬ jsTrim title = "")
    (hmh : body.minHoursPerWeek = some mh) (hmh0 : ¬ mh < 0)
    (hpr : body.priority = JsField.val pr)
    (hcolor : ¬ body.color = JsField.invalid) :
    (sumActiveGoalHours s userId none + mh > user.availableHoursPerWeek →
      postGoals (some userId) body s =
        (.error ⟨409,
            capacityInsufficientMessage user.availableHoursPerWeek
              (sumActiveGoalHours s userId none + mh),
            .capacity user.availableHoursPerWeek (sumActiveGoalHours s userId none + mh)
              (collectActiveGoalSummaries s userId none)⟩, s)) ∧
    (¬ sumActiveGoalHours s userId none + mh > user.availableHoursPerWeek →
      ∃ g s2, postGoals (some userId) body s = (.ok g, s2) ∧
        s2.goals = s.goals ++ [g] ∧ g.userId = userId ∧ g.minHoursPerWeek = mh ∧
        g.status = "active") ∧
    (sumActiveGoalHours fs fuser.id none + resolvedPlanHours fs fpayload >
        fuser.availableHoursPerWeek →
      finalizeGoalPlanFromAgentPayload env fuser fpayload fs =
        (.error ⟨409,
            capacityInsufficientMessage fuser.availableHoursPerWeek
              (sumActiveGoalHours fs fuser.id none + resolvedPlanHours fs fpayload),
            .capacity fuser.availableHoursPerWeek
              (sumActiveGoalHours fs fuser.id none + resolvedPlanHours fs fpayload)
              (collectActiveGoalSummaries fs fuser.id none ++
                [⟨"pending", resolvedGoalTitle fs fpayload, resolvedPlanHours fs fpayload⟩])⟩,
          fs)) ∧
    (¬ sumActiveGoalHours fs fuser.id none + resolvedPlanHours fs fpayload >
        fuser.availableHoursPerWeek →
      ∃ r s2, finalizeGoalPlanFromAgentPayload env fuser fpayload fs = (.ok r, s2) ∧
        r.goal.userId = fuser.id ∧ r.goal.minHoursPerWeek = resolvedPlanHours fs fpayload ∧
        r.goal.status = "active" ∧ r.goal ∈ s2.goals) := by
  refine ⟨?_, ?_, ?_, ?_⟩
  · intro hcap
    simp only [postGoals, huser, htitle, if_neg htrim, hmh, if_neg hmh0, hpr,
      if_neg hcolor]
    rw [if_pos hcap]
  · intro hcap
    have hrun : postGoals (some userId) body s =
        (.ok (createGoal s userId (jsTrim title) body.description mh pr
            (match body.color with
             | JsField.val c => some c
             | _ => none)).1,
          (createGoal s userId (jsTrim title) body.description mh pr
            (match body.color with
             | JsField.val c => some c
             | _ => none)).2) := by
      simp only [postGoals, huser, htitle, if_neg htrim, hmh, if_neg hmh0, hpr,
        if_neg hcolor]
      rw [if_neg hcap]
    exact ⟨_, _, hrun, rfl, rfl, rfl, rfl⟩
  · intro hcap
    simp only [finalizeGoalPlanFromAgentPayload]
    rw [if_pos hcap]
  · intro hcap
    simp only [finalizeGoalPlanFromAgentPayload, if_neg hcap]
    refine ⟨_, _, rfl, rfl, rfl, rfl, ?_⟩
    rw [(createPlanMilestones_preserves env _ _ _ _).1]
    simp [createGoal, freshId]

/-- Witness for C1: Scenario A (20h budget, one active 18h goal, new 5h goal →
409 with `requiredHoursPerWeek = 23` and no pending entry) through the direct
path, and a finalize-path conflict (25h plan against a 20h budget) whose
details do carry the pending entry. -/
theorem C1_witness :
    (¬ jsTrim "New" = "") ∧
    postGoals (some "u1")
        ⟨some "New", none, some 5, JsField.val 0, JsField.absent⟩
        ⟨[⟨"u1", 20⟩], [⟨"g1", "u1", "Existing", none, "active", none, 18, 0⟩],
          [], [], [], [], [], 0⟩ =
      (.error ⟨409, capacityInsufficientMessage 20 23,
          .capacity 20 23 [⟨"g1", "Existing", 18⟩]⟩,
        ⟨[⟨"u1", 20⟩], [⟨"g1", "u1", "Existing", none, "active", none, 18, 0⟩],
          [], [], [], [], [], 0⟩) ∧
    finalizeGoalPlanFromAgentPayload ⟨fun v => some v, "2025-01-01"⟩ ⟨"u2", 20⟩
        ⟨none, none, none, ⟨none, some ⟨some "Big", none, some 25, none, none⟩, none⟩⟩
        ⟨[⟨"u2", 20⟩], [], [], [], [], [], [], 0⟩ =
      (.error ⟨409, capacityInsufficientMessage 20 25,
          .capacity 20 25 [⟨"pending", "Big", 25⟩]⟩,
        ⟨[⟨"u2", 20⟩], [], [], [], [], [], [], 0⟩) := by
  refine ⟨by decide, ?_, ?_⟩
  · exact (C1_capacity_check _ _ _ ⟨"u1", 20⟩ _ 5 0
      ⟨fun v => some v, "2025-01-01"⟩ ⟨"u2", 20⟩
      ⟨none, none, none, ⟨none, some ⟨some "Big", none, some 25, none, none⟩, none⟩⟩
      ⟨[⟨"u2", 20⟩], [], [], [], [], [], [], 0⟩
      (by decide) rfl (by decide) rfl (by decide) rfl (by decide)).1 (by decide)
  · exact (C1_capacity_check
      ⟨[⟨"u1", 20⟩], [⟨"g1", "u1", "Existing", none, "active", none, 18, 0⟩],
        [], [], [], [], [], 0⟩
      "u1" "New" ⟨"u1", 20⟩
      ⟨some "New", none, some 5, JsField.val 0, JsField.absent⟩ 5 0
      _ _ _ _
      (by decide) rfl (by decide) rfl (by decide) rfl (by decide)).2.2.1 (by decide)

/-- C9: on a successful finalization the committed goal's title is
`"Untitled Goal"` whenever the resolved plan's title is missing or blank,
priority defaults to 0 and color to none when absent, and when the plan's
`minHoursPerWeek` is not a finite number the goal's weekly hours equal the sum
over all nested plan tasks of their `estimatedHours`, each non-numeric or
non-finite value counted as 0 and negatives clamped to 0. -/
theorem C9_finalize_defaults (env : DateEnv) (user : UserRecord)
    (payload : AgentActionPayload) (s s2 : Store) (r : FinalizeResult)
    (h : finalizeGoalPlanFromAgentPayload env user payload s = (.ok r, s2)) :
    (((resolvedGoalPlan s payload).title = none ∨
        (∃ t, (resolvedGoalPlan s payload).title = some t ∧ jsTrim t = "")) →
      r.goal.title = "Untitled Goal") ∧
    ((resolvedGoalPlan s payload).priority = none → r.goal.priority = 0) ∧
    ((resolvedGoalPlan s payload).color = none → r.goal.color = none) ∧
    ((resolvedGoalPlan s payload).minHoursPerWeek = none →
      r.goal.minHoursPerWeek =
        ((resolvedMilestonePlans s payload).map (fun mp =>
          ((mp.tasks.getD []).map (fun tp =>
            match tp.estimatedHours with
            | some hrs => max 0 hrs
            | none => 0)).sum)).sum) := by
  have hgoal : r.goal = (createGoal s user.id (resolvedGoalTitle s payload)
      (resolvedDescription s payload) (resolvedPlanHours s payload)
      (resolvedPriority s payload) (resolvedColor s payload)).1 := by
    by_cases hcap : sumActiveGoalHours s user.id none + resolvedPlanHours s payload >
        user.availableHoursPerWeek
    · simp only [finalizeGoalPlanFromAgentPayload, if_pos hcap] at h
      rw [Prod.mk.injEq] at h
      exact absurd h.1 (by simp)
    · simp only [finalizeGoalPlanFromAgentPayload, if_neg hcap] at h
      rw [Prod.mk.injEq] at h
      injection h.1 with h1
      rw [← h1]
  refine ⟨?_, ?_, ?_, ?_⟩
  · intro hblank
    rw [hgoal]
    show resolvedGoalTitle s payload = "Untitled Goal"
    unfold resolvedGoalTitle defaultTrimmed
    rcases hblank with hnone | ⟨t, ht, htr⟩
    · rw [hnone]
    · rw [ht]
      simp [htr]
  · intro hp
    rw [hgoal]
    show resolvedPriority s payload = 0
    unfold resolvedPriority
    rw [hp]
  · intro hc
    rw [hgoal]
    show resolvedColor s payload = none
    unfold resolvedColor
    exact hc
  · intro hm
    rw [hgoal]
    show resolvedPlanHours s payload = _
    unfold resolvedPlanHours
    rw [hm]
    exact computePlanTaskHours_eq_sum _

/-- Witness for C9: a finalize commit whose plan has a blank title, no
priority, no color and no `minHoursPerWeek`, with one milestone holding one 3h
task — the committed goal is `"Untitled Goal"` with priority 0, no color, and
3 weekly hours. -/
theorem C9_witness :
    finalizeGoalPlanFromAgentPayload ⟨fun v => some v, "2025-01-01"⟩ ⟨"u1", 20⟩
        ⟨none, none, none,
          ⟨none, some ⟨some " ", none, none, none, none⟩,
            some [⟨some "M1", none, none, some [⟨none, none, none, some 3, false⟩]⟩]⟩⟩
        ⟨[⟨"u1", 20⟩], [], [], [], [], [], [], 0⟩ =
      (.ok ⟨⟨"id0", "u1", "Untitled Goal", none, "active", none, 3, 0⟩,
          ["id1"], ["id2"], none⟩,
        ⟨[⟨"u1", 20⟩], [⟨"id0", "u1", "Untitled Goal", none, "active", none, 3, 0⟩],
          [⟨"id1", "id0", none, "M1", none, "blocked"⟩],
          [⟨"id2", "id0", "id1", "u1", "Task", none, "2025-01-01", 3, false⟩],
          [], [], [], 3⟩) ∧
    FinalizeResult.goal ⟨⟨"id0", "u1", "Untitled Goal", none, "active", none, 3, 0⟩,
        ["id1"], ["id2"], none⟩ =
      ⟨"id0", "u1", "Untitled Goal", none, "active", none, 3, 0⟩ ∧
    ("Untitled Goal" = "Untitled Goal" ∧ (0 : Int) = 0 ∧
      (3 : Int) = ([([max 0 3] : List Int).sum] : List Int).sum) := by
  have h9 : finalizeGoalPlanFromAgentPayload ⟨fun v => some v, "2025-01-01"⟩ ⟨"u1", 20⟩
      ⟨none, none, none,
        ⟨none, some ⟨some " ", none, none, none, none⟩,
          some [⟨some "M1", none, none, some [⟨none, none, none, some 3, false⟩]⟩]⟩⟩
      ⟨[⟨"u1", 20⟩], [], [], [], [], [], [], 0⟩ =
      (.ok ⟨⟨"id0", "u1", "Untitled Goal", none, "active", none, 3, 0⟩,
          ["id1"], ["id2"], none⟩,
        ⟨[⟨"u1", 20⟩], [⟨"id0", "u1", "Untitled Goal", none, "active", none, 3, 0⟩],
          [⟨"id1", "id0", none, "M1", none, "blocked"⟩],
          [⟨"id2", "id0", "id1", "u1", "Task", none, "2025-01-01", 3, false⟩],
          [], [], [], 3⟩) := by decide
  have hdef := C9_finalize_defaults ⟨fun v => some v, "2025-01-01"⟩ ⟨"u1", 20⟩
      ⟨none, none, none,
        ⟨none, some ⟨some " ", none, none, none, none⟩,
          some [⟨some "M1", none, none, some [⟨none, none, none, some 3, false⟩]⟩]⟩⟩
      ⟨[⟨"u1", 20⟩], [], [], [], [], [], [], 0⟩ _ _ h9
  refine ⟨h9, rfl, ?_, ?_, ?_⟩
  · exact (hdef.1 (Or.inr ⟨" ", rfl, by decide⟩)).symm ▸ rfl
  · exact (hdef.2.1 rfl) ▸ rfl
  · exact (hdef.2.2.2 rfl) ▸ by decide

/-! ## Session-lookup and store-preservation lemmas for the orchestrator -/

theorem upsertGoalPreview_sessions (s : Store) (pid : Option String)
    (u sid : String) (d : PlanContainer) :
    (upsertGoalPreview s pid u sid d).2.sessions = s.sessions := by
  cases pid with
  | none => rfl
  | some p =>
    unfold upsertGoalPreview
    dsimp only
    split <;> rfl

theorem finalize_sessions (env : DateEnv) (user : UserRecord)
    (payload : AgentActionPayload) (s : Store) :
    (finalizeGoalPlanFromAgentPayload env user payload s).2.sessions = s.sessions := by
  unfold finalizeGoalPlanFromAgentPayload
  dsimp only
  split
  · rfl
  · rw [(createPlanMilestones_preserves env _ _ _ _).2.1]
    rfl

/-- A failing finalization leaves the store untouched and its error is the 409
capacity conflict. -/
theorem finalize_error_store (env : DateEnv) (user : UserRecord)
    (payload : AgentActionPayload) (s : Store) (e : ApiError)
    (h : (finalizeGoalPlanFromAgentPayload env user payload s).1 = .error e) :
    (finalizeGoalPlanFromAgentPayload env user payload s).2 = s ∧
    e.status = 409 ∧ ∃ a b c, e.details = .capacity a b c := by
  unfold finalizeGoalPlanFromAgentPayload at h ⊢
  by_cases hcap : sumActiveGoalHours s user.id none + resolvedPlanHours s payload >
      user.availableHoursPerWeek
  · rw [if_pos hcap] at h ⊢
    simp only at h
    injection h with h1
    refine ⟨rfl, ?_, ?_⟩
    · rw [← h1]
    · exact ⟨_, _, _, by rw [← h1]⟩
  · rw [if_neg hcap] at h
    simp at h

theorem find?_map_replace (l : List SessionStateRecord) (sess u : SessionStateRecord)
    (hfind : l.find? (fun x => x.id == sess.id) = some sess) (hu : u.id = sess.id) :
    (l.map (fun x => if x.id = sess.id then u else x)).find?
      (fun x => x.id == sess.id) = some u := by
  induction l with
  | nil => simp at hfind
  | cons a rest ih =>
    simp only [List.map_cons]
    by_cases ha : a.id = sess.id
    · rw [if_pos ha]
      rw [List.find?_cons_of_pos _ (by simp [hu])]
    · rw [if_neg ha]
      rw [List.find?_cons_of_neg _ (by simp [ha])]
      rw [List.find?_cons_of_neg _ (by simp [ha])] at hfind
      exact ih hfind

/-- After `updateSession`, looking the session up again returns exactly the
updated record. -/
theorem findSessionById_after_update (s : Store) (sid : String)
    (sess : SessionStateRecord) (st : StatusTag) (it : Int) (gp : Option String)
    (act : Bool) (ctx : UserContextSnapshot)
    (hfind : findSessionById s sid = some sess) :
    findSessionById (updateSession s sess st it gp act ctx).2 sid =
      some (updateSession s sess st it gp act ctx).1 := by
  have hid : sess.id = sid := by
    have := List.find?_some hfind
    simpa using this
  subst hid
  unfold findSessionById at hfind ⊢
  unfold updateSession
  exact find?_map_replace s.sessions sess _ hfind rfl

theorem findSessionById_congr (s1 s2 : Store) (sid : String)
    (h : s1.sessions = s2.sessions) :
    findSessionById s1 sid = findSessionById s2 sid := by
  unfold findSessionById
  rw [h]

/-- `finishSessionUpdate` persists exactly the computed session: its iteration
is the engine-supplied one when present (else prior + 1) and its
`sessionActive` is the forced flag. -/
theorem finishSessionUpdate_ok_session (sess : SessionStateRecord)
    (resp : AgentServiceResponse) (gp : Option String) (sa : Bool)
    (ctx : UserContextSnapshot) (s3 : Store) (sid : String)
    (r : MessageResponse) (s' : Store)
    (hfind : findSessionById s3 sid = some sess)
    (h : finishSessionUpdate sess resp gp sa ctx s3 = (.ok r, s')) :
    ∃ u, findSessionById s' sid = some u ∧
      u.iteration = (match resp.state with
        | some st => st.iteration.getD (sess.iteration + 1)
        | none => sess.iteration + 1) ∧
      u.sessionActive = sa := by
  unfold finishSessionUpdate at h
  dsimp only at h
  rw [Prod.mk.injEq] at h
  refine ⟨(updateSession s3 sess
      (match resp.state with
       | some st => st.state.getD sess.state
       | none => sess.state)
      (match resp.state with
       | some st => st.iteration.getD (sess.iteration + 1)
       | none => sess.iteration + 1)
      (jsOr (match resp.state with
             | some st => st.goalPreviewId
             | none => none) gp)
      sa ctx).1, ?_, rfl, rfl⟩
  rw [← h.2]
  exact findSessionById_after_update s3 sid sess _ _ _ sa ctx hfind

/-- The persisted session after a successful reconciliation: the iteration
fallback rule, and a `finalize_goal` action forcing `sessionActive = false`. -/
theorem applyAgentOutcome_ok_session (env : Env) (userId : String)
    (user : UserRecord) (sess : SessionStateRecord) (ctx : UserContextSnapshot)
    (resp : AgentServiceResponse) (s2 : Store) (sid : String)
    (r : MessageResponse) (s' : Store)
    (hfind : findSessionById s2 sid = some sess)
    (h : applyAgentOutcome env userId user sess ctx resp s2 = (.ok r, s')) :
    ∃ u, findSessionById s' sid = some u ∧
      u.iteration = (match resp.state with
        | some st => st.iteration.getD (sess.iteration + 1)
        | none => sess.iteration + 1) ∧
      (∀ act, resp.action = some act → act.type = "finalize_goal" →
        u.sessionActive = false) := by
  unfold applyAgentOutcome at h
  cases hact : resp.action with
  | none =>
    rw [hact] at h
    dsimp only at h
    exact absurd (congrArg Prod.fst h) (by simp)
  | some act =>
    rw [hact] at h
    dsimp only at h
    by_cases hsp : act.type = "save_preview"
    · rw [if_pos hsp] at h
      obtain ⟨u, hu, hiter, _⟩ := finishSessionUpdate_ok_session sess resp _ _ _ _ sid _ _
        (by rw [findSessionById_congr _ s2 sid (upsertGoalPreview_sessions _ _ _ _ _)]
            exact hfind) h
      refine ⟨u, hu, hiter, ?_⟩
      intro act2 hact2 hft
      have he : act = act2 := Option.some.inj hact2
      rw [← he, hsp] at hft
      exact absurd hft (by decide)
    · by_cases hfg : act.type = "finalize_goal"
      · rw [if_neg hsp, if_pos hfg] at h
        cases hfr : (finalizeGoalPlanFromAgentPayload env.date user
            (act.payload.getD ⟨none, none, none, ⟨none, none, none⟩⟩) s2).1 with
        | error e =>
          rw [hfr] at h
          exact absurd (congrArg Prod.fst h) (by simp)
        | ok fres =>
          rw [hfr] at h
          obtain ⟨u, hu, hiter, hsa⟩ := finishSessionUpdate_ok_session sess resp _ false _ _
            sid _ _
            (by rw [findSessionById_congr _ s2 sid (finalize_sessions _ _ _ _)]
                exact hfind) h
          exact ⟨u, hu, hiter, fun _ _ _ => hsa⟩
      · rw [if_neg hsp, if_neg hfg] at h
        obtain ⟨u, hu, hiter, _⟩ := finishSessionUpdate_ok_session sess resp _ _ _ _ sid _ _
          hfind h
        refine ⟨u, hu, hiter, ?_⟩
        intro act2 hact2 hft
        have he : act = act2 := Option.some.inj hact2
        rw [← he] at hft
        exact absurd hft hfg

/-- Reduction of the authorized core under a resolved, owned, active session,
an existing user, a successful bootstrap and a fixed engine response. -/
theorem sessionMessageCore_reduce (env : Env) (s : Store) (uid sid msg : String)
    (gp : Option PlanContainer) (sess : SessionStateRecord) (user : UserRecord)
    (resp : AgentServiceResponse)
    (hfind : findSessionById s sid = some sess)
    (howner : sess.userId = uid) (hactive : ¬ sess.sessionActive = false)
    (huser : findUserById s uid = some user)
    (hinit : ∀ a b, env.initRemote a b = .ok ())
    (hrun : ∀ p, env.invokeAgent p = .ok resp) :
    sessionMessageCore env uid sid msg gp s =
      applyAgentOutcome env uid user sess (buildUserContext s user) resp
        (appendChatMessage (appendChatMessage s sess.chatId sess.id "user" msg)
          sess.chatId sess.id "agent" resp.reply) := by
  unfold sessionMessageCore
  rw [hfind]
  dsimp only
  rw [if_neg (fun hne => hne howner), if_neg hactive, huser]
  dsimp only
  simp only [hinit, ite_self]
  simp only [hrun]

/-- Reduction of the handler's validation prefix for a well-formed body with
no body-level `userId`. -/
theorem handleSessionMessage_reduce (env : Env) (s : Store)
    (uid sid msg : String) (gp : Option PlanContainer)
    (hsid : ¬ jsTrim sid = "") (hmsg : ¬ jsTrim msg = "") :
    handleSessionMessage env (some uid) ⟨some sid, some msg, gp, JsField.absent⟩ s =
      sessionMessageCore env uid sid msg gp s := by
  unfold handleSessionMessage
  dsimp only
  rw [if_neg hsid, if_neg hmsg]

/-- C5: whenever a processed message's engine response carries
`action.type = "finalize_goal"` and the exchange succeeds (so the commit
succeeded), the session record persisted at the end has
`sessionActive = false` — for every engine response, including one whose
`state.sessionActive` is `true`. -/
theorem C5_finalize_forces_inactive (env : Env) (s : Store)
    (uid sid msg : String) (gp : Option PlanContainer)
    (sess : SessionStateRecord) (user : UserRecord)
    (resp : AgentServiceResponse) (act : AgentAction)
    (r : MessageResponse) (s' : Store)
    (hsid : ¬ jsTrim sid = "") (hmsg : ¬ jsTrim msg = "")
    (hfind : findSessionById s sid = some sess)
    (howner : sess.userId = uid) (hactive : ¬ sess.sessionActive = false)
    (huser : findUserById s uid = some user)
    (hinit : ∀ a b, env.initRemote a b = .ok ())
    (hrun : ∀ p, env.invokeAgent p = .ok resp)
    (hact : resp.action = some act) (hft : act.type = "finalize_goal")
    (h : handleSessionMessage env (some uid)
        ⟨some sid, some msg, gp, JsField.absent⟩ s = (.ok r, s')) :
    ∃ u, findSessionById s' sid = some u ∧ u.sessionActive = false := by
  rw [handleSessionMessage_reduce env s uid sid msg gp hsid hmsg,
    sessionMessageCore_reduce env s uid sid msg gp sess user resp hfind howner hactive
      huser hinit hrun] at h
  obtain ⟨u, hu, _, hfin⟩ := applyAgentOutcome_ok_session env uid user sess
    (buildUserContext s user) resp
    (appendChatMessage (appendChatMessage s sess.chatId sess.id "user" msg)
      sess.chatId sess.id "agent" resp.reply) sid r s'
    (show findSessionById (appendChatMessage (appendChatMessage s sess.chatId
        sess.id "user" msg) sess.chatId sess.id "agent" resp.reply) sid = some sess
      from hfind) h
  exact ⟨u, hu, hfin act hact hft⟩

/-- C6: on every successful message exchange the persisted session's iteration
equals the engine-supplied `state.iteration` whenever one is supplied, and
otherwise equals the prior iteration plus exactly 1. -/
theorem C6_iteration_rule (env : Env) (s : Store)
    (uid sid msg : String) (gp : Option PlanContainer)
    (sess : SessionStateRecord) (user : UserRecord)
    (resp : AgentServiceResponse) (r : MessageResponse) (s' : Store)
    (hsid : ¬ jsTrim sid = "") (hmsg : ¬ jsTrim msg = "")
    (hfind : findSessionById s sid = some sess)
    (howner : sess.userId = uid) (hactive : ¬ sess.sessionActive = false)
    (huser : findUserById s uid = some user)
    (hinit : ∀ a b, env.initRemote a b = .ok ())
    (hrun : ∀ p, env.invokeAgent p = .ok resp)
    (h : handleSessionMessage env (some uid)
        ⟨some sid, some msg, gp, JsField.absent⟩ s = (.ok r, s')) :
    ∃ u, findSessionById s' sid = some u ∧
      (∀ st i, resp.state = some st → st.iteration = some i → u.iteration = i) ∧
      ((resp.state = none ∨ ∃ st, resp.state = some st ∧ st.iteration = none) →
        u.iteration = sess.iteration + 1) := by
  rw [handleSessionMessage_reduce env s uid sid msg gp hsid hmsg,
    sessionMessageCore_reduce env s uid sid msg gp sess user resp hfind howner hactive
      huser hinit hrun] at h
  obtain ⟨u, hu, hiter, _⟩ := applyAgentOutcome_ok_session env uid user sess
    (buildUserContext s user) resp
    (appendChatMessage (appendChatMessage s sess.chatId sess.id "user" msg)
      sess.chatId sess.id "agent" resp.reply) sid r s'
    (show findSessionById (appendChatMessage (appendChatMessage s sess.chatId
        sess.id "user" msg) sess.chatId sess.id "agent" resp.reply) sid = some sess
      from hfind) h
  refine ⟨u, hu, ?_, ?_⟩
  · intro st i h1 h2
    rw [h1] at hiter
    dsimp only at hiter
    rw [h2] at hiter
    exact hiter
  · intro hcase
    rcases hcase with h1 | ⟨st, h1, h2⟩
    · rw [h1] at hiter
      exact hiter
    · rw [h1] at hiter
      dsimp only at hiter
      rw [h2] at hiter
      exact hiter

/-- C2: when the engine commands `finalize_goal` but finalization rejects, the
whole exchange fails with the 409 capacity conflict and no goal, milestone or
task has been created by the call; the session update is never reached, so the
stored session is unchanged and still active. -/
theorem C2_finalize_conflict_atomic (env : Env) (s : Store)
    (uid sid msg : String) (gp : Option PlanContainer)
    (sess : SessionStateRecord) (user : UserRecord)
    (resp : AgentServiceResponse) (act : AgentAction)
    (e : ApiError) (s' : Store)
    (hsid : ¬ jsTrim sid = "") (hmsg : ¬ jsTrim msg = "")
    (hfind : findSessionById s sid = some sess)
    (howner : sess.userId = uid) (hactive : sess.sessionActive = true)
    (huser : findUserById s uid = some user)
    (hinit : ∀ a b, env.initRemote a b = .ok ())
    (hrun : ∀ p, env.invokeAgent p = .ok resp)
    (hact : resp.action = some act) (hft : act.type = "finalize_goal")
    (h : handleSessionMessage env (some uid)
        ⟨some sid, some msg, gp, JsField.absent⟩ s = (.error e, s')) :
    e.status = 409 ∧ (∃ a b c, e.details = .capacity a b c) ∧
    s'.goals = s.goals ∧ s'.milestones = s.milestones ∧ s'.tasks = s.tasks ∧
    s'.sessions = s.sessions ∧
    findSessionById s' sid = some sess ∧ sess.sessionActive = true := by
  rw [handleSessionMessage_reduce env s uid sid msg gp hsid hmsg,
    sessionMessageCore_reduce env s uid sid msg gp sess user resp hfind howner
      (by rw [hactive]; decide) huser hinit hrun] at h
  unfold applyAgentOutcome at h
  rw [hact] at h
  dsimp only at h
  rw [if_neg (by rw [hft]; decide), if_pos hft] at h
  cases hfr : (finalizeGoalPlanFromAgentPayload env.date user
      (act.payload.getD ⟨none, none, none, ⟨none, none, none⟩⟩)
      (appendChatMessage (appendChatMessage s sess.chatId sess.id "user" msg)
        sess.chatId sess.id "agent" resp.reply)).1 with
  | ok fres =>
    rw [hfr] at h
    exact absurd (congrArg Prod.fst h)
      (by unfold finishSessionUpdate; dsimp only; simp)
  | error e0 =>
    rw [hfr] at h
    rw [Prod.mk.injEq] at h
    have he : e0 = e := Except.error.inj h.1
    obtain ⟨hstore, hstatus, hdetails⟩ := finalize_error_store env.date user _ _ e0 hfr
    rw [he] at hstatus hdetails
    have hs' : s' = (finalizeGoalPlanFromAgentPayload env.date user
        (act.payload.getD ⟨none, none, none, ⟨none, none, none⟩⟩)
        (appendChatMessage (appendChatMessage s sess.chatId sess.id "user" msg)
          sess.chatId sess.id "agent" resp.reply)).2 := h.2.symm
    rw [hstore] at hs'
    refine ⟨hstatus, hdetails, ?_, ?_, ?_, ?_, ?_, hactive⟩
    · rw [hs']; rfl
    · rw [hs']; rfl
    · rw [hs']; rfl
    · rw [hs']; rfl
    · rw [hs']
      exact hfind

/-- C7: the user's inbound message is appended to the transcript strictly
before either reasoning-engine call, so if the bootstrap or the run call
fails, the handler fails with that error but the transcript already holds the
user message (and nothing else new). -/
theorem C7_chat_durability (env : Env) (s : Store)
    (uid sid msg : String) (gp : Option PlanContainer)
    (sess : SessionStateRecord) (user : UserRecord)
    (hsid : ¬ jsTrim sid = "") (hmsg : ¬ jsTrim msg = "")
    (hfind : findSessionById s sid = some sess)
    (howner : sess.userId = uid) (hactive : ¬ sess.sessionActive = false)
    (huser : findUserById s uid = some user) :
    (∀ e, sess.iteration = 0 → env.initRemote uid sess.id = .error e →
      handleSessionMessage env (some uid) ⟨some sid, some msg, gp, JsField.absent⟩ s =
        (.error e, appendChatMessage s sess.chatId sess.id "user" msg)) ∧
    (∀ e, (sess.iteration = 0 → env.initRemote uid sess.id = .ok ()) →
      (∀ p, env.invokeAgent p = .error e) →
      handleSessionMessage env (some uid) ⟨some sid, some msg, gp, JsField.absent⟩ s =
        (.error e, appendChatMessage s sess.chatId sess.id "user" msg)) := by
  constructor
  · intro e hiter hinitErr
    rw [handleSessionMessage_reduce env s uid sid msg gp hsid hmsg]
    unfold sessionMessageCore
    rw [hfind]
    dsimp only
    rw [if_neg (fun hne => hne howner), if_neg hactive, huser]
    dsimp only
    rw [if_pos hiter, hinitErr]
  · intro e hinitOk hrunErr
    rw [handleSessionMessage_reduce env s uid sid msg gp hsid hmsg]
    unfold sessionMessageCore
    rw [hfind]
    dsimp only
    rw [if_neg (fun hne => hne howner), if_neg hactive, huser]
    dsimp only
    by_cases hiter : sess.iteration = 0
    · rw [if_pos hiter, hinitOk hiter]
      dsimp only
      rw [hrunErr]
    · rw [if_neg hiter]
      dsimp only
      rw [hrunErr]

/-- C3 (amended): in the message-send operation a sessionId resolving to no
session fails with a **400** error whose message says the session was not
found (not a 404), a session owned by a different user fails with a **401**
Unauthorized error (not a 403), and an inactive session fails with a 409
whose message references the session id; in all three cases the store is
untouched (the rejection precedes any side effect). -/
theorem C3_session_resolution (env : Env) (s : Store) (uid sid msg : String)
    (gp : Option PlanContainer) (sess : SessionStateRecord)
    (hsid : ¬ jsTrim sid = "") (hmsg : ¬ jsTrim msg = "") :
    (findSessionById s sid = none →
      handleSessionMessage env (some uid) ⟨some sid, some msg, gp, JsField.absent⟩ s =
        (.error ⟨400, "Session " ++ sid ++ " not found.", .nodetails⟩, s)) ∧
    (findSessionById s sid = some sess → sess.userId ≠ uid →
      handleSessionMessage env (some uid) ⟨some sid, some msg, gp, JsField.absent⟩ s =
        (.error ⟨401, "Unauthorized.", .nodetails⟩, s)) ∧
    (findSessionById s sid = some sess → sess.userId = uid →
      sess.sessionActive = false →
      handleSessionMessage env (some uid) ⟨some sid, some msg, gp, JsField.absent⟩ s =
        (.error ⟨409, "Session " ++ sid ++
            " is finalized and cannot accept new messages.", .nodetails⟩, s)) := by
  refine ⟨?_, ?_, ?_⟩
  · intro hnone
    rw [handleSessionMessage_reduce env s uid sid msg gp hsid hmsg]
    unfold sessionMessageCore
    rw [hnone]
  · intro hfind hne
    rw [handleSessionMessage_reduce env s uid sid msg gp hsid hmsg]
    unfold sessionMessageCore
    rw [hfind]
    dsimp only
    rw [if_pos hne]
  · intro hfind howner hinactive
    rw [handleSessionMessage_reduce env s uid sid msg gp hsid hmsg]
    unfold sessionMessageCore
    rw [hfind]
    dsimp only
    rw [if_neg (fun hne => hne howner), if_pos hinactive]

/-- C10: a body-level `userId` differing from the authenticated caller is
rejected with 401 Unauthorized with the store untouched — for every store, so
independently of whether the session exists — while a body whose `userId`
equals the caller's id behaves exactly like a body without the field. -/
theorem C10_body_userId_guard (env : Env) (s : Store) (uid sid msg v : String)
    (gp : Option PlanContainer)
    (hsid : ¬ jsTrim sid = "") (hmsg : ¬ jsTrim msg = "") :
    (v ≠ uid →
      handleSessionMessage env (some uid) ⟨some sid, some msg, gp, JsField.val v⟩ s =
        (.error ⟨401, "Unauthorized.", .nodetails⟩, s)) ∧
    (handleSessionMessage env (some uid) ⟨some sid, some msg, gp, JsField.val uid⟩ s =
      handleSessionMessage env (some uid) ⟨some sid, some msg, gp, JsField.absent⟩ s) := by
  constructor
  · intro hne
    unfold handleSessionMessage
    dsimp only
    rw [if_neg hsid, if_neg hmsg, if_neg hne]
  · unfold handleSessionMessage
    dsimp only
    rw [if_neg hsid, if_neg hmsg, if_pos rfl, if_neg hsid, if_neg hmsg]

/-- C3 counterexample: an unknown sessionId is rejected with status **400**
(the claim's NotFound class would be 404), and a session owned by another user
is rejected with status **401** (the claim's Forbidden class would be 403). -/
theorem C3_counterexample :
    (handleSessionMessage
        ⟨⟨fun v => some v, "2025-01-01"⟩, fun _ _ => .ok (),
          fun _ => .error ⟨503, "Agent service unavailable. Please try again later.",
            .nodetails⟩⟩
        (some "u1") ⟨some "sess1", some "hi", none, JsField.absent⟩
        ⟨[], [], [], [], [], [], [], 0⟩).1 =
      .error ⟨400, "Session sess1 not found.", .nodetails⟩ ∧
    (handleSessionMessage
        ⟨⟨fun v => some v, "2025-01-01"⟩, fun _ _ => .ok (),
          fun _ => .error ⟨503, "Agent service unavailable. Please try again later.",
            .nodetails⟩⟩
        (some "u1") ⟨some "sess1", some "hi", none, JsField.absent⟩
        ⟨[], [], [], [],
          [⟨"sess1", "u2", "chat1", "plan_generated", 2, none, true, ⟨0, []⟩⟩],
          [], [], 0⟩).1 =
      .error ⟨401, "Unauthorized.", .nodetails⟩ := by
  constructor <;> decide

/-- Witness for C3 (amended): the three rejections at concrete stores — 400
for a missing session, 401 for a foreign session, 409 naming the session id
for a finalized session — each with the store unchanged. -/
theorem C3_witness :
    (¬ jsTrim "sess1" = "") ∧
    handleSessionMessage
        ⟨⟨fun v => some v, "2025-01-01"⟩, fun _ _ => .ok (),
          fun _ => .error ⟨503, "Agent service unavailable. Please try again later.",
            .nodetails⟩⟩
        (some "u1") ⟨some "sess1", some "hi", none, JsField.absent⟩
        ⟨[], [], [], [], [], [], [], 0⟩ =
      (.error ⟨400, "Session sess1 not found.", .nodetails⟩,
        ⟨[], [], [], [], [], [], [], 0⟩) ∧
    handleSessionMessage
        ⟨⟨fun v => some v, "2025-01-01"⟩, fun _ _ => .ok (),
          fun _ => .error ⟨503, "Agent service unavailable. Please try again later.",
            .nodetails⟩⟩
        (some "u1") ⟨some "sess1", some "hi", none, JsField.absent⟩
        ⟨[], [], [], [],
          [⟨"sess1", "u2", "chat1", "plan_generated", 2, none, true, ⟨0, []⟩⟩],
          [], [], 0⟩ =
      (.error ⟨401, "Unauthorized.", .nodetails⟩,
        ⟨[], [], [], [],
          [⟨"sess1", "u2", "chat1", "plan_generated", 2, none, true, ⟨0, []⟩⟩],
          [], [], 0⟩) ∧
    handleSessionMessage
        ⟨⟨fun v => some v, "2025-01-01"⟩, fun _ _ => .ok (),
          fun _ => .error ⟨503, "Agent service unavailable. Please try again later.",
            .nodetails⟩⟩
        (some "u1") ⟨some "sess1", some "hi", none, JsField.absent⟩
        ⟨[], [], [], [],
          [⟨"sess1", "u1", "chat1", "finalized", 3, none, false, ⟨0, []⟩⟩],
          [], [], 0⟩ =
      (.error ⟨409, "Session sess1 is finalized and cannot accept new messages.",
          .nodetails⟩,
        ⟨[], [], [], [],
          [⟨"sess1", "u1", "chat1", "finalized", 3, none, false, ⟨0, []⟩⟩],
          [], [], 0⟩) := by
  refine ⟨by decide, ?_, ?_, ?_⟩
  · exact (C3_session_resolution _ ⟨[], [], [], [], [], [], [], 0⟩ "u1" "sess1" "hi" none
      ⟨"sess1", "u2", "chat1", "plan_generated", 2, none, true, ⟨0, []⟩⟩
      (by decide) (by decide)).1 rfl
  · exact (C3_session_resolution _
      ⟨[], [], [], [],
        [⟨"sess1", "u2", "chat1", "plan_generated", 2, none, true, ⟨0, []⟩⟩],
        [], [], 0⟩ "u1" "sess1" "hi" none
      ⟨"sess1", "u2", "chat1", "plan_generated", 2, none, true, ⟨0, []⟩⟩
      (by decide) (by decide)).2.1 rfl (by decide)
  · exact (C3_session_resolution _
      ⟨[], [], [], [],
        [⟨"sess1", "u1", "chat1", "finalized", 3, none, false, ⟨0, []⟩⟩],
        [], [], 0⟩ "u1" "sess1" "hi" none
      ⟨"sess1", "u1", "chat1", "finalized", 3, none, false, ⟨0, []⟩⟩
      (by decide) (by decide)).2.2 rfl rfl rfl

/-- Witness for C10: a body-level `userId` of `"u2"` sent by caller `"u1"` is
rejected with 401 on an untouched store, and `userId = "u1"` behaves exactly
like omitting the field. -/
theorem C10_witness :
    (("u2" : String) ≠ "u1") ∧
    handleSessionMessage
        ⟨⟨fun v => some v, "2025-01-01"⟩, fun _ _ => .ok (),
          fun _ => .error ⟨503, "Agent service unavailable. Please try again later.",
            .nodetails⟩⟩
        (some "u1") ⟨some "sess1", some "hi", none, JsField.val "u2"⟩
        ⟨[], [], [], [], [], [], [], 0⟩ =
      (.error ⟨401, "Unauthorized.", .nodetails⟩, ⟨[], [], [], [], [], [], [], 0⟩) ∧
    handleSessionMessage
        ⟨⟨fun v => some v, "2025-01-01"⟩, fun _ _ => .ok (),
          fun _ => .error ⟨503, "Agent service unavailable. Please try again later.",
            .nodetails⟩⟩
        (some "u1") ⟨some "sess1", some "hi", none, JsField.val "u1"⟩
        ⟨[], [], [], [], [], [], [], 0⟩ =
      handleSessionMessage
        ⟨⟨fun v => some v, "2025-01-01"⟩, fun _ _ => .ok (),
          fun _ => .error ⟨503, "Agent service unavailable. Please try again later.",
            .nodetails⟩⟩
        (some "u1") ⟨some "sess1", some "hi", none, JsField.absent⟩
        ⟨[], [], [], [], [], [], [], 0⟩ := by
  refine ⟨by decide, ?_, ?_⟩
  · exact (C10_body_userId_guard _ ⟨[], [], [], [], [], [], [], 0⟩ "u1" "sess1" "hi" "u2"
      none (by decide) (by decide)).1 (by decide)
  · exact (C10_body_userId_guard _ ⟨[], [], [], [], [], [], [], 0⟩ "u1" "sess1" "hi" "u2"
      none (by decide) (by decide)).2

/-- Witness for C7: with the engine run call failing (503), the exchange fails
but the transcript already contains the user's message. -/
theorem C7_witness :
    (¬ jsTrim "hi" = "") ∧
    handleSessionMessage
        ⟨⟨fun v => some v, "2025-01-01"⟩, fun _ _ => .ok (),
          fun _ => .error ⟨503, "Agent service unavailable. Please try again later.",
            .nodetails⟩⟩
        (some "u1") ⟨some "sess1", some "hi", none, JsField.absent⟩
        ⟨[⟨"u1", 20⟩], [], [], [],
          [⟨"sess1", "u1", "chat1", "plan_generated", 2, none, true, ⟨0, []⟩⟩],
          [], [], 0⟩ =
      (.error ⟨503, "Agent service unavailable. Please try again later.", .nodetails⟩,
        appendChatMessage
          ⟨[⟨"u1", 20⟩], [], [], [],
            [⟨"sess1", "u1", "chat1", "plan_generated", 2, none, true, ⟨0, []⟩⟩],
            [], [], 0⟩ "chat1" "sess1" "user" "hi") ∧
    (⟨"chat1", "sess1", "user", "hi"⟩ : ChatMessageRecord) ∈
      (handleSessionMessage
        ⟨⟨fun v => some v, "2025-01-01"⟩, fun _ _ => .ok (),
          fun _ => .error ⟨503, "Agent service unavailable. Please try again later.",
            .nodetails⟩⟩
        (some "u1") ⟨some "sess1", some "hi", none, JsField.absent⟩
        ⟨[⟨"u1", 20⟩], [], [], [],
          [⟨"sess1", "u1", "chat1", "plan_generated", 2, none, true, ⟨0, []⟩⟩],
          [], [], 0⟩).2.chats := by
  refine ⟨by decide, ?_, by decide⟩
  exact (C7_chat_durability _
      ⟨[⟨"u1", 20⟩], [], [], [],
        [⟨"sess1", "u1", "chat1", "plan_generated", 2, none, true, ⟨0, []⟩⟩],
        [], [], 0⟩ "u1" "sess1" "hi" none
      ⟨"sess1", "u1", "chat1", "plan_generated", 2, none, true, ⟨0, []⟩⟩
      ⟨"u1", 20⟩ (by decide) (by decide) (by decide) rfl (by decide) (by decide)).2
    ⟨503, "Agent service unavailable. Please try again later.", .nodetails⟩
    (fun _ => rfl) (fun _ => rfl)

/-- Witness for C2: Scenario E — the engine finalizes a 25h plan for a user
with a 20h budget and no active goals; the exchange fails with the 409
capacity conflict, no goal/milestone/task is created, and the session is
unchanged and still active. -/
theorem C2_witness :
    (¬ jsTrim "hi" = "") ∧
    (handleSessionMessage
        ⟨⟨fun v => some v, "2025-01-01"⟩, fun _ _ => .ok (),
          fun _ => .ok ⟨"no", some ⟨"finalize_goal",
              some ⟨none, none, none,
                ⟨none, some ⟨some "Big", none, some 25, none, none⟩, none⟩⟩⟩,
            some ⟨some "finalized", some 7, some false, none⟩, none⟩⟩
        (some "u1") ⟨some "sess1", some "hi", none, JsField.absent⟩
        ⟨[⟨"u1", 20⟩], [], [], [],
          [⟨"sess1", "u1", "chat1", "plan_generated", 2, none, true, ⟨0, []⟩⟩],
          [], [], 0⟩).1 =
      .error ⟨409, capacityInsufficientMessage 20 25,
        .capacity 20 25 [⟨"pending", "Big", 25⟩]⟩ ∧
    (handleSessionMessage
        ⟨⟨fun v => some v, "2025-01-01"⟩, fun _ _ => .ok (),
          fun _ => .ok ⟨"no", some ⟨"finalize_goal",
              some ⟨none, none, none,
                ⟨none, some ⟨some "Big", none, some 25, none, none⟩, none⟩⟩⟩,
            some ⟨some "finalized", some 7, some false, none⟩, none⟩⟩
        (some "u1") ⟨some "sess1", some "hi", none, JsField.absent⟩
        ⟨[⟨"u1", 20⟩], [], [], [],
          [⟨"sess1", "u1", "chat1", "plan_generated", 2, none, true, ⟨0, []⟩⟩],
          [], [], 0⟩).2.goals = [] ∧
    (handleSessionMessage
        ⟨⟨fun v => some v, "2025-01-01"⟩, fun _ _ => .ok (),
          fun _ => .ok ⟨"no", some ⟨"finalize_goal",
              some ⟨none, none, none,
                ⟨none, some ⟨some "Big", none, some 25, none, none⟩, none⟩⟩⟩,
            some ⟨some "finalized", some 7, some false, none⟩, none⟩⟩
        (some "u1") ⟨some "sess1", some "hi", none, JsField.absent⟩
        ⟨[⟨"u1", 20⟩], [], [], [],
          [⟨"sess1", "u1", "chat1", "plan_generated", 2, none, true, ⟨0, []⟩⟩],
          [], [], 0⟩).2.tasks = [] ∧
    findSessionById (handleSessionMessage
        ⟨⟨fun v => some v, "2025-01-01"⟩, fun _ _ => .ok (),
          fun _ => .ok ⟨"no", some ⟨"finalize_goal",
              some ⟨none, none, none,
                ⟨none, some ⟨some "Big", none, some 25, none, none⟩, none⟩⟩⟩,
            some ⟨some "finalized", some 7, some false, none⟩, none⟩⟩
        (some "u1") ⟨some "sess1", some "hi", none, JsField.absent⟩
        ⟨[⟨"u1", 20⟩], [], [], [],
          [⟨"sess1", "u1", "chat1", "plan_generated", 2, none, true, ⟨0, []⟩⟩],
          [], [], 0⟩).2 "sess1" =
      some ⟨"sess1", "u1", "chat1", "plan_generated", 2, none, true, ⟨0, []⟩⟩ := by
  have hek : (handleSessionMessage
      ⟨⟨fun v => some v, "2025-01-01"⟩, fun _ _ => .ok (),
        fun _ => .ok ⟨"no", some ⟨"finalize_goal",
            some ⟨none, none, none,
              ⟨none, some ⟨some "Big", none, some 25, none, none⟩, none⟩⟩⟩,
          some ⟨some "finalized", some 7, some false, none⟩, none⟩⟩
      (some "u1") ⟨some "sess1", some "hi", none, JsField.absent⟩
      ⟨[⟨"u1", 20⟩], [], [], [],
        [⟨"sess1", "u1", "chat1", "plan_generated", 2, none, true, ⟨0, []⟩⟩],
        [], [], 0⟩).1 =
      .error ⟨409, capacityInsufficientMessage 20 25,
        .capacity 20 25 [⟨"pending", "Big", 25⟩]⟩ := by decide
  have h : handleSessionMessage
      ⟨⟨fun v => some v, "2025-01-01"⟩, fun _ _ => .ok (),
        fun _ => .ok ⟨"no", some ⟨"finalize_goal",
            some ⟨none, none, none,
              ⟨none, some ⟨some "Big", none, some 25, none, none⟩, none⟩⟩⟩,
          some ⟨some "finalized", some 7, some false, none⟩, none⟩⟩
      (some "u1") ⟨some "sess1", some "hi", none, JsField.absent⟩
      ⟨[⟨"u1", 20⟩], [], [], [],
        [⟨"sess1", "u1", "chat1", "plan_generated", 2, none, true, ⟨0, []⟩⟩],
        [], [], 0⟩ =
      (.error ⟨409, capacityInsufficientMessage 20 25,
          .capacity 20 25 [⟨"pending", "Big", 25⟩]⟩,
        (handleSessionMessage
          ⟨⟨fun v => some v, "2025-01-01"⟩, fun _ _ => .ok (),
            fun _ => .ok ⟨"no", some ⟨"finalize_goal",
                some ⟨none, none, none,
                  ⟨none, some ⟨some "Big", none, some 25, none, none⟩, none⟩⟩⟩,
              some ⟨some "finalized", some 7, some false, none⟩, none⟩⟩
          (some "u1") ⟨some "sess1", some "hi", none, JsField.absent⟩
          ⟨[⟨"u1", 20⟩], [], [], [],
            [⟨"sess1", "u1", "chat1", "plan_generated", 2, none, true, ⟨0, []⟩⟩],
            [], [], 0⟩).2) := by
    rw [← hek]
  obtain ⟨_, _, hgoals, _, htasks, _, hsess, _⟩ :=
    C2_finalize_conflict_atomic _ _ "u1" "sess1" "hi" none
      ⟨"sess1", "u1", "chat1", "plan_generated", 2, none, true, ⟨0, []⟩⟩
      ⟨"u1", 20⟩
      ⟨"no", some ⟨"finalize_goal",
          some ⟨none, none, none,
            ⟨none, some ⟨some "Big", none, some 25, none, none⟩, none⟩⟩⟩,
        some ⟨some "finalized", some 7, some false, none⟩, none⟩
      ⟨"finalize_goal",
        some ⟨none, none, none,
          ⟨none, some ⟨some "Big", none, some 25, none, none⟩, none⟩⟩⟩
      _ _ (by decide) (by decide) (by decide) rfl rfl (by decide)
      (fun _ _ => rfl) (fun _ => rfl) rfl rfl h
  exact ⟨by decide, hek, hgoals, htasks, hsess⟩

/-- Witness for C5: the engine finalizes a 5h plan and reports
`state.sessionActive = true`, yet the persisted session has
`sessionActive = false`. -/
theorem C5_witness :
    (¬ jsTrim "sess1" = "") ∧
    (handleSessionMessage
        ⟨⟨fun v => some v, "2025-01-01"⟩, fun _ _ => .ok (),
          fun _ => .ok ⟨"done", some ⟨"finalize_goal",
              some ⟨none, none, none,
                ⟨none, some ⟨some "G", none, some 5, none, none⟩, none⟩⟩⟩,
            some ⟨some "finalized", some 7, some true, none⟩, none⟩⟩
        (some "u1") ⟨some "sess1", some "hi", none, JsField.absent⟩
        ⟨[⟨"u1", 20⟩], [], [], [],
          [⟨"sess1", "u1", "chat1", "plan_generated", 2, none, true, ⟨0, []⟩⟩],
          [], [], 0⟩).1 =
      .ok ⟨"sess1", "done", "finalized", 7, false, none⟩ ∧
    (∃ u, findSessionById (handleSessionMessage
        ⟨⟨fun v => some v, "2025-01-01"⟩, fun _ _ => .ok (),
          fun _ => .ok ⟨"done", some ⟨"finalize_goal",
              some ⟨none, none, none,
                ⟨none, some ⟨some "G", none, some 5, none, none⟩, none⟩⟩⟩,
            some ⟨some "finalized", some 7, some true, none⟩, none⟩⟩
        (some "u1") ⟨some "sess1", some "hi", none, JsField.absent⟩
        ⟨[⟨"u1", 20⟩], [], [], [],
          [⟨"sess1", "u1", "chat1", "plan_generated", 2, none, true, ⟨0, []⟩⟩],
          [], [], 0⟩).2 "sess1" = some u ∧ u.sessionActive = false) := by
  have hok : (handleSessionMessage
      ⟨⟨fun v => some v, "2025-01-01"⟩, fun _ _ => .ok (),
        fun _ => .ok ⟨"done", some ⟨"finalize_goal",
            some ⟨none, none, none,
              ⟨none, some ⟨some "G", none, some 5, none, none⟩, none⟩⟩⟩,
          some ⟨some "finalized", some 7, some true, none⟩, none⟩⟩
      (some "u1") ⟨some "sess1", some "hi", none, JsField.absent⟩
      ⟨[⟨"u1", 20⟩], [], [], [],
        [⟨"sess1", "u1", "chat1", "plan_generated", 2, none, true, ⟨0, []⟩⟩],
        [], [], 0⟩).1 =
      .ok ⟨"sess1", "done", "finalized", 7, false, none⟩ := by decide
  have h : handleSessionMessage
      ⟨⟨fun v => some v, "2025-01-01"⟩, fun _ _ => .ok (),
        fun _ => .ok ⟨"done", some ⟨"finalize_goal",
            some ⟨none, none, none,
              ⟨none, some ⟨some "G", none, some 5, none, none⟩, none⟩⟩⟩,
          some ⟨some "finalized", some 7, some true, none⟩, none⟩⟩
      (some "u1") ⟨some "sess1", some "hi", none, JsField.absent⟩
      ⟨[⟨"u1", 20⟩], [], [], [],
        [⟨"sess1", "u1", "chat1", "plan_generated", 2, none, true, ⟨0, []⟩⟩],
        [], [], 0⟩ =
      (.ok ⟨"sess1", "done", "finalized", 7, false, none⟩,
        (handleSessionMessage
          ⟨⟨fun v => some v, "2025-01-01"⟩, fun _ _ => .ok (),
            fun _ => .ok ⟨"done", some ⟨"finalize_goal",
                some ⟨none, none, none,
                  ⟨none, some ⟨some "G", none, some 5, none, none⟩, none⟩⟩⟩,
              some ⟨some "finalized", some 7, some true, none⟩, none⟩⟩
          (some "u1") ⟨some "sess1", some "hi", none, JsField.absent⟩
          ⟨[⟨"u1", 20⟩], [], [], [],
            [⟨"sess1", "u1", "chat1", "plan_generated", 2, none, true, ⟨0, []⟩⟩],
            [], [], 0⟩).2) := by
    rw [← hok]
  exact ⟨by decide, hok,
    C5_finalize_forces_inactive _ _ "u1" "sess1" "hi" none
      ⟨"sess1", "u1", "chat1", "plan_generated", 2, none, true, ⟨0, []⟩⟩
      ⟨"u1", 20⟩
      ⟨"done", some ⟨"finalize_goal",
          some ⟨none, none, none,
            ⟨none, some ⟨some "G", none, some 5, none, none⟩, none⟩⟩⟩,
        some ⟨some "finalized", some 7, some true, none⟩, none⟩
      ⟨"finalize_goal",
        some ⟨none, none, none,
          ⟨none, some ⟨some "G", none, some 5, none, none⟩, none⟩⟩⟩
      _ _ (by decide) (by decide) (by decide) rfl (by decide) (by decide)
      (fun _ _ => rfl) (fun _ => rfl) rfl rfl h⟩

/-- Witness for C6: the engine supplies a state object without an iteration
value, so the persisted iteration is the prior one plus exactly 1. -/
theorem C6_witness :
    (¬ jsTrim "hi" = "") ∧
    (handleSessionMessage
        ⟨⟨fun v => some v, "2025-01-01"⟩, fun _ _ => .ok (),
          fun _ => .ok ⟨"ok", some ⟨"none", none⟩,
            some ⟨none, none, none, none⟩, none⟩⟩
        (some "u1") ⟨some "sess1", some "hi", none, JsField.absent⟩
        ⟨[⟨"u1", 20⟩], [], [], [],
          [⟨"sess1", "u1", "chat1", "plan_generated", 2, none, true, ⟨0, []⟩⟩],
          [], [], 0⟩).1 =
      .ok ⟨"sess1", "ok", "plan_generated", 3, true, none⟩ ∧
    (∃ u, findSessionById (handleSessionMessage
        ⟨⟨fun v => some v, "2025-01-01"⟩, fun _ _ => .ok (),
          fun _ => .ok ⟨"ok", some ⟨"none", none⟩,
            some ⟨none, none, none, none⟩, none⟩⟩
        (some "u1") ⟨some "sess1", some "hi", none, JsField.absent⟩
        ⟨[⟨"u1", 20⟩], [], [], [],
          [⟨"sess1", "u1", "chat1", "plan_generated", 2, none, true, ⟨0, []⟩⟩],
          [], [], 0⟩).2 "sess1" = some u ∧ u.iteration = 2 + 1) := by
  have hok : (handleSessionMessage
      ⟨⟨fun v => some v, "2025-01-01"⟩, fun _ _ => .ok (),
        fun _ => .ok ⟨"ok", some ⟨"none", none⟩,
          some ⟨none, none, none, none⟩, none⟩⟩
      (some "u1") ⟨some "sess1", some "hi", none, JsField.absent⟩
      ⟨[⟨"u1", 20⟩], [], [], [],
        [⟨"sess1", "u1", "chat1", "plan_generated", 2, none, true, ⟨0, []⟩⟩],
        [], [], 0⟩).1 =
      .ok ⟨"sess1", "ok", "plan_generated", 3, true, none⟩ := by decide
  have h : handleSessionMessage
      ⟨⟨fun v => some v, "2025-01-01"⟩, fun _ _ => .ok (),
        fun _ => .ok ⟨"ok", some ⟨"none", none⟩,
          some ⟨none, none, none, none⟩, none⟩⟩
      (some "u1") ⟨some "sess1", some "hi", none, JsField.absent⟩
      ⟨[⟨"u1", 20⟩], [], [], [],
        [⟨"sess1", "u1", "chat1", "plan_generated", 2, none, true, ⟨0, []⟩⟩],
        [], [], 0⟩ =
      (.ok ⟨"sess1", "ok", "plan_generated", 3, true, none⟩,
        (handleSessionMessage
          ⟨⟨fun v => some v, "2025-01-01"⟩, fun _ _ => .ok (),
            fun _ => .ok ⟨"ok", some ⟨"none", none⟩,
              some ⟨none, none, none, none⟩, none⟩⟩
          (some "u1") ⟨some "sess1", some "hi", none, JsField.absent⟩
          ⟨[⟨"u1", 20⟩], [], [], [],
            [⟨"sess1", "u1", "chat1", "plan_generated", 2, none, true, ⟨0, []⟩⟩],
            [], [], 0⟩).2) := by
    rw [← hok]
  obtain ⟨u, hu, _, hfallback⟩ :=
    C6_iteration_rule _ _ "u1" "sess1" "hi" none
      ⟨"sess1", "u1", "chat1", "plan_generated", 2, none, true, ⟨0, []⟩⟩
      ⟨"u1", 20⟩
      ⟨"ok", some ⟨"none", none⟩, some ⟨none, none, none, none⟩, none⟩
      _ _ (by decide) (by decide) (by decide) rfl (by decide) (by decide)
      (fun _ _ => rfl) (fun _ => rfl) h
  exact ⟨by decide, hok, u, hu, hfallback (Or.inr ⟨_, rfl, rfl⟩)⟩

/-- Witness for C4: Scenario B — milestone `m1` has a task dated 2025-11-10;
creating a second task on `m1` for that day is rejected listing the first
task's id, while creating the same-day task under sibling milestone `m2`
succeeds; re-dating a task within `m1` onto the occupied day is also
rejected. -/
theorem C4_witness :
    (¬ jsTrim "T" = "") ∧
    postMilestoneTask ⟨fun v => some v, "2025-01-01"⟩ (some "u1") "m1"
        ⟨some "T", JsField.absent, some "2025-11-10", some 2⟩
        ⟨[⟨"u1", 20⟩], [⟨"g1", "u1", "Goal", none, "active", none, 0, 0⟩],
          [⟨"m1", "g1", none, "M1", none, "in_progress"⟩,
           ⟨"m2", "g1", none, "M2", none, "in_progress"⟩],
          [⟨"t1", "g1", "m1", "u1", "A", none, "2025-11-10", 1, false⟩,
           ⟨"t3", "g1", "m1", "u1", "C", none, "2025-11-11", 1, false⟩,
           ⟨"t2", "g1", "m2", "u1", "B", none, "2025-12-01", 1, false⟩],
          [], [], [], 9⟩ =
      (.error ⟨409, "Task date conflicts with an existing scheduled task or calendar event.",
          .taskConflict ["t1"]⟩,
        ⟨[⟨"u1", 20⟩], [⟨"g1", "u1", "Goal", none, "active", none, 0, 0⟩],
          [⟨"m1", "g1", none, "M1", none, "in_progress"⟩,
           ⟨"m2", "g1", none, "M2", none, "in_progress"⟩],
          [⟨"t1", "g1", "m1", "u1", "A", none, "2025-11-10", 1, false⟩,
           ⟨"t3", "g1", "m1", "u1", "C", none, "2025-11-11", 1, false⟩,
           ⟨"t2", "g1", "m2", "u1", "B", none, "2025-12-01", 1, false⟩],
          [], [], [], 9⟩) ∧
    (∃ t s', postMilestoneTask ⟨fun v => some v, "2025-01-01"⟩ (some "u1") "m2"
        ⟨some "T", JsField.absent, some "2025-11-10", some 2⟩
        ⟨[⟨"u1", 20⟩], [⟨"g1", "u1", "Goal", none, "active", none, 0, 0⟩],
          [⟨"m1", "g1", none, "M1", none, "in_progress"⟩,
           ⟨"m2", "g1", none, "M2", none, "in_progress"⟩],
          [⟨"t1", "g1", "m1", "u1", "A", none, "2025-11-10", 1, false⟩,
           ⟨"t3", "g1", "m1", "u1", "C", none, "2025-11-11", 1, false⟩,
           ⟨"t2", "g1", "m2", "u1", "B", none, "2025-12-01", 1, false⟩],
          [], [], [], 9⟩ = (.ok t, s') ∧
      s'.tasks =
        [⟨"t1", "g1", "m1", "u1", "A", none, "2025-11-10", 1, false⟩,
         ⟨"t3", "g1", "m1", "u1", "C", none, "2025-11-11", 1, false⟩,
         ⟨"t2", "g1", "m2", "u1", "B", none, "2025-12-01", 1, false⟩] ++ [t] ∧
      t.milestoneId = "m2" ∧ t.userId = "u1" ∧ t.date = "2025-11-10" ∧
      t.done = false) ∧
    patchTask ⟨fun v => some v, "2025-01-01"⟩ (some "u1") "t3"
        ⟨JsField.absent, JsField.absent, JsField.val "2025-11-10",
          JsField.absent, JsField.absent⟩
        ⟨[⟨"u1", 20⟩], [⟨"g1", "u1", "Goal", none, "active", none, 0, 0⟩],
          [⟨"m1", "g1", none, "M1", none, "in_progress"⟩,
           ⟨"m2", "g1", none, "M2", none, "in_progress"⟩],
          [⟨"t1", "g1", "m1", "u1", "A", none, "2025-11-10", 1, false⟩,
           ⟨"t3", "g1", "m1", "u1", "C", none, "2025-11-11", 1, false⟩,
           ⟨"t2", "g1", "m2", "u1", "B", none, "2025-12-01", 1, false⟩],
          [], [], [], 9⟩ =
      (.error ⟨409, "Task date conflicts with an existing scheduled task or calendar event.",
          .taskConflict ["t1"]⟩,
        ⟨[⟨"u1", 20⟩], [⟨"g1", "u1", "Goal", none, "active", none, 0, 0⟩],
          [⟨"m1", "g1", none, "M1", none, "in_progress"⟩,
           ⟨"m2", "g1", none, "M2", none, "in_progress"⟩],
          [⟨"t1", "g1", "m1", "u1", "A", none, "2025-11-10", 1, false⟩,
           ⟨"t3", "g1", "m1", "u1", "C", none, "2025-11-11", 1, false⟩,
           ⟨"t2", "g1", "m2", "u1", "B", none, "2025-12-01", 1, false⟩],
          [], [], [], 9⟩) := by
  refine ⟨by decide, ?_, ?_, ?_⟩
  · exact (C4_task_date_conflict ⟨fun v => some v, "2025-01-01"⟩
      ⟨[⟨"u1", 20⟩], [⟨"g1", "u1", "Goal", none, "active", none, 0, 0⟩],
        [⟨"m1", "g1", none, "M1", none, "in_progress"⟩,
         ⟨"m2", "g1", none, "M2", none, "in_progress"⟩],
        [⟨"t1", "g1", "m1", "u1", "A", none, "2025-11-10", 1, false⟩,
         ⟨"t3", "g1", "m1", "u1", "C", none, "2025-11-11", 1, false⟩,
         ⟨"t2", "g1", "m2", "u1", "B", none, "2025-12-01", 1, false⟩],
        [], [], [], 9⟩
      "u1" "m1" "t3" ⟨"m1", "g1", none, "M1", none, "in_progress"⟩
      ⟨"g1", "u1", "Goal", none, "active", none, 0, 0⟩
      ⟨"t3", "g1", "m1", "u1", "C", none, "2025-11-11", 1, false⟩
      ⟨some "T", JsField.absent, some "2025-11-10", some 2⟩
      ⟨JsField.absent, JsField.absent, JsField.val "2025-11-10",
        JsField.absent, JsField.absent⟩
      "T" "2025-11-10" "2025-11-10" 2
      (by decide) (by decide) rfl rfl (by decide) (by decide) rfl (by decide) rfl rfl
      (by decide) (by decide) (by decide) rfl).1.1 (by decide)
  · exact (C4_task_date_conflict ⟨fun v => some v, "2025-01-01"⟩
      ⟨[⟨"u1", 20⟩], [⟨"g1", "u1", "Goal", none, "active", none, 0, 0⟩],
        [⟨"m1", "g1", none, "M1", none, "in_progress"⟩,
         ⟨"m2", "g1", none, "M2", none, "in_progress"⟩],
        [⟨"t1", "g1", "m1", "u1", "A", none, "2025-11-10", 1, false⟩,
         ⟨"t3", "g1", "m1", "u1", "C", none, "2025-11-11", 1, false⟩,
         ⟨"t2", "g1", "m2", "u1", "B", none, "2025-12-01", 1, false⟩],
        [], [], [], 9⟩
      "u1" "m2" "t2" ⟨"m2", "g1", none, "M2", none, "in_progress"⟩
      ⟨"g1", "u1", "Goal", none, "active", none, 0, 0⟩
      ⟨"t2", "g1", "m2", "u1", "B", none, "2025-12-01", 1, false⟩
      ⟨some "T", JsField.absent, some "2025-11-10", some 2⟩
      ⟨JsField.absent, JsField.absent, JsField.val "2025-11-10",
        JsField.absent, JsField.absent⟩
      "T" "2025-11-10" "2025-11-10" 2
      (by decide) (by decide) rfl rfl (by decide) (by decide) rfl (by decide) rfl rfl
      (by decide) (by decide) (by decide) rfl).1.2 (by decide)
  · exact (C4_task_date_conflict ⟨fun v => some v, "2025-01-01"⟩
      ⟨[⟨"u1", 20⟩], [⟨"g1", "u1", "Goal", none, "active", none, 0, 0⟩],
        [⟨"m1", "g1", none, "M1", none, "in_progress"⟩,
         ⟨"m2", "g1", none, "M2", none, "in_progress"⟩],
        [⟨"t1", "g1", "m1", "u1", "A", none, "2025-11-10", 1, false⟩,
         ⟨"t3", "g1", "m1", "u1", "C", none, "2025-11-11", 1, false⟩,
         ⟨"t2", "g1", "m2", "u1", "B", none, "2025-12-01", 1, false⟩],
        [], [], [], 9⟩
      "u1" "m1" "t3" ⟨"m1", "g1", none, "M1", none, "in_progress"⟩
      ⟨"g1", "u1", "Goal", none, "active", none, 0, 0⟩
      ⟨"t3", "g1", "m1", "u1", "C", none, "2025-11-11", 1, false⟩
      ⟨some "T", JsField.absent, some "2025-11-10", some 2⟩
      ⟨JsField.absent, JsField.absent, JsField.val "2025-11-10",
        JsField.absent, JsField.absent⟩
      "T" "2025-11-10" "2025-11-10" 2
      (by decide) (by decide) rfl rfl (by decide) (by decide) rfl (by decide) rfl rfl
      (by decide) (by decide) (by decide) rfl).2.1 (by decide)
